import Mathlib

/-!
# speer: a verification development of `speer.go`

`speer.go` wraps one WebRTC peer connection (pion) and one data channel into an
`io.ReadWriteCloser`.  The transport engine (pion) lies outside the repository, so the
embedding takes it as a parameter: an `Engine σ` is a record of the engine operations the
source calls, each a function on an arbitrary engine state `σ`.  The theorems below hold
for every engine; where one relies on a contract of the engine, it is a hypothesis.

The Go code is embedded by explicit state passing:

* `Peer` is the Go struct;
* `World σ` is everything outside the struct: the engine state, the random source used by
  `randString`, the closures the peer has registered with the engine, the goroutines the
  peer has started and that are still parked, and a trace recording every effectful call
  the peer made (engine operations, handler methods, description callbacks);
* a method that can panic returns an `Outcome`: either the value it returned or
  `panicked`, next to the peer and the world as they stood at that point.

State-observing getters of the engine (`ConnectionState`, `ReadyState`,
`LocalDescription`) are pure functions of the engine state and are not traced.

A goroutine started with `go` waits on `<-gatherComplete` before it does anything; it is
kept in the world as parked and its body runs when the engine completes that promise
(`Event.GatherComplete`).  Calls and events are taken one at a time: the interleaving of
a method with a concurrent engine callback is not modelled.
-/

namespace Speer

/-! ## Go errors -/

/-- A non-nil Go error value built by `errors.New`, `fmt.Errorf` with `%w`, or
`errors.Join`.  Engine errors are values of the same type.  Go compares error values
with `==`; the embedding compares them structurally. -/
inductive Err where
  | new (msg : String)
  | wrap (format : String) (inner : Err)
  | join (errs : List Err)
deriving Repr

/-- A Go `error`: `none` is `nil`. -/
abbrev Error := Option Err

mutual
/-- The comparison `err == target` on non-nil errors. -/
def Err.beq : Err → Err → Bool
  | .new a, .new b => a == b
  | .wrap a x, .wrap b y => a == b && Err.beq x y
  | .join xs, .join ys => Err.beqList xs ys
  | _, _ => false
/-- Pointwise comparison of two error lists. -/
def Err.beqList : List Err → List Err → Bool
  | [], [] => true
  | x :: xs, y :: ys => Err.beq x y && Err.beqList xs ys
  | _, _ => false
end

mutual
/-- The loop of `errors.Is` on a non-nil error and a non-nil target: compare, then
follow `Unwrap() error` or search every element of `Unwrap() []error`. -/
def Err.is (target : Err) : Err → Bool
  | .new m => Err.beq (.new m) target
  | .wrap f inner => Err.beq (.wrap f inner) target || Err.is target inner
  | .join es => Err.beq (.join es) target || Err.isAny target es
/-- Whether some element of the list matches the target. -/
def Err.isAny (target : Err) : List Err → Bool
  | [] => false
  | e :: es => Err.is target e || Err.isAny target es
end

/-- Go `errors.Is(err, target)`. -/
def errorsIs (err target : Error) : Bool :=
  match err, target with
  | some e, some t => Err.is t e
  | none, none => true
  | _, _ => false

/-- Go `errors.Join(errs...)`: nil values are dropped; the result is nil when nothing is
left. -/
def errorsJoin (errs : List Error) : Error :=
  match errs.filterMap id with
  | [] => none
  | es => some (.join es)

/-! ## Values and handles of the transport engine -/

/-- The type `webrtc.SessionDescription`, opaque to the peer. -/
structure SessionDescription where
  sdp : String
deriving DecidableEq, Repr

/-- The type `webrtc.ICECandidate`, opaque to the peer. -/
structure ICECandidate where
  candidate : String
deriving DecidableEq, Repr

/-- The type `webrtc.ICECandidateInit`, opaque to the peer. -/
structure ICECandidateInit where
  candidate : String
deriving DecidableEq, Repr

/-- The type `webrtc.ICEServer`. -/
structure ICEServer where
  URLs : List String
deriving DecidableEq, Repr

/-- The type `webrtc.SDPSemantics`. -/
inductive SDPSemantics where
  | UnifiedPlan
  | PlanB
  | UnifiedPlanWithFallback
deriving DecidableEq, Repr

/-- The type `webrtc.Configuration` (the fields the source sets). -/
structure Configuration where
  ICEServers : List ICEServer
  SDPSemantics : SDPSemantics
deriving DecidableEq, Repr

/-- The type `webrtc.DataChannelInit`: the two optional (pointer) fields the source and its
tests use. -/
structure DataChannelInit where
  Negotiated : Option Bool
  ID : Option Nat
deriving DecidableEq, Repr

/-- The type `webrtc.OfferOptions`, opaque to the peer. -/
structure OfferOptions where
  ICERestart : Bool
deriving DecidableEq, Repr

/-- The type `webrtc.AnswerOptions`, opaque to the peer. -/
structure AnswerOptions where
  tag : Nat
deriving DecidableEq, Repr

/-- The type `webrtc.PeerConnectionState`. -/
inductive PeerConnectionState where
  | Unknown
  | New
  | Connecting
  | Connected
  | Disconnected
  | Failed
  | Closed
deriving DecidableEq, Repr

/-- The type `webrtc.DataChannelState`. -/
inductive DataChannelState where
  | Unknown
  | Connecting
  | Open
  | Closing
  | Closed
deriving DecidableEq, Repr

/-- A handle `*webrtc.PeerConnection`. -/
structure PeerConnection where
  id : Nat
deriving DecidableEq, Repr

/-- A handle `*webrtc.DataChannel`. -/
structure DataChannel where
  id : Nat
deriving DecidableEq, Repr

/-- A handle `datachannel.ReadWriteCloser`, the detached stream. -/
structure ReadWriteCloser where
  id : Nat
deriving DecidableEq, Repr

/-- The channel returned by `webrtc.GatheringCompletePromise`. -/
structure Promise where
  id : Nat
deriving DecidableEq, Repr

/-- The function value `cb func(webrtc.SessionDescription)` a caller passes to
`CreateOffer` or `ReceiveOffer`, known by an identifier; invoking it is recorded in the
trace. -/
structure DescriptionCallback where
  id : Nat
deriving DecidableEq, Repr

/-- The operations of the transport engine that `speer.go` calls.  `σ` is the engine's
own state; an operation returning `(T, error)` is an `Except Err T`, one returning `error`
is an `Error`. -/
structure Engine (σ : Type) where
  NewPeerConnection : Configuration → σ → Except Err PeerConnection × σ
  CreateDataChannel : PeerConnection → String → DataChannelInit → σ → Except Err DataChannel × σ
  CreateOffer : PeerConnection → OfferOptions → σ → Except Err SessionDescription × σ
  CreateAnswer : PeerConnection → AnswerOptions → σ → Except Err SessionDescription × σ
  SetLocalDescription : PeerConnection → SessionDescription → σ → Error × σ
  SetRemoteDescription : PeerConnection → SessionDescription → σ → Error × σ
  LocalDescription : PeerConnection → σ → Option SessionDescription
  AddICECandidate : PeerConnection → ICECandidateInit → σ → Error × σ
  ConnectionState : PeerConnection → σ → PeerConnectionState
  Close : PeerConnection → σ → Error × σ
  GatheringCompletePromise : PeerConnection → σ → Promise × σ
  ReadyState : DataChannel → σ → DataChannelState
  SetBufferedAmountLowThreshold : DataChannel → Nat → σ → Unit × σ
  Detach : DataChannel → σ → Except Err ReadWriteCloser × σ
  ChannelClose : DataChannel → σ → Error × σ
  Write : ReadWriteCloser → List UInt8 → σ → (Int × Error) × σ
  Read : ReadWriteCloser → List UInt8 → σ → (Int × Error × List UInt8) × σ
  StreamClose : ReadWriteCloser → σ → Error × σ

/-! ## Handlers and options -/

/-- The interface `Handler`.  `SDPTransform` returns a value and is a function; the three
notification methods return nothing, and a call of one is recorded in the trace under the
handler's position in `opts.handlers`. -/
structure Handler where
  SDPTransform : SessionDescription → SessionDescription

/-- The handler `NOOPHandler`. -/
def NOOPHandler : Handler where
  SDPTransform := fun sdp => sdp

/-- The struct `options`. -/
structure options where
  initiator : Bool
  config : Configuration
  channelConfig : DataChannelInit
  offerOptions : OfferOptions
  answerOptions : AnswerOptions
  trickle : Bool
  handlers : List Handler

/-- The type `peerOption`, a `func(*options)`. -/
abbrev peerOption := options → options

/-- The option `WithInitiator`. -/
def WithInitiator (initiator : Bool) : peerOption :=
  fun o => { o with initiator := initiator }

/-- The option `WithConfig`. -/
def WithConfig (config : Configuration) : peerOption :=
  fun o => { o with config := config }

/-- The option `WithChannelConfig`. -/
def WithChannelConfig (config : DataChannelInit) : peerOption :=
  fun o => { o with channelConfig := config }

/-- The option `WithOfferOptions`. -/
def WithOfferOptions (opts : OfferOptions) : peerOption :=
  fun o => { o with offerOptions := opts }

/-- The option `WithAnswerOptions`. -/
def WithAnswerOptions (opts : AnswerOptions) : peerOption :=
  fun o => { o with answerOptions := opts }

/-- The option `WithTrickle`. -/
def WithTrickle (t : Bool) : peerOption :=
  fun o => { o with trickle := t }

/-- The option `WithHandlers`: every non-nil handler is appended, in argument order. -/
def WithHandlers (h : List (Option Handler)) : peerOption :=
  fun o => { o with handlers := o.handlers ++ h.filterMap id }

/-- The struct `Peer`. -/
structure Peer where
  opts : options
  peerConnection : PeerConnection
  channel : Option DataChannel
  channelRWC : Option ReadWriteCloser
  AfterCloseErrors : Error

/-! ## The world outside the peer -/

/-- One effectful call made by the peer. -/
inductive Call where
  | NewPeerConnection (config : Configuration)
  | OnICECandidate (pc : PeerConnection)
  | OnConnectionStateChange (pc : PeerConnection)
  | OnDataChannel (pc : PeerConnection)
  | CreateDataChannel (pc : PeerConnection) (label : String) (init : DataChannelInit)
  | CreateOffer (pc : PeerConnection) (opts : OfferOptions)
  | CreateAnswer (pc : PeerConnection) (opts : AnswerOptions)
  | SetLocalDescription (pc : PeerConnection) (sdp : SessionDescription)
  | SetRemoteDescription (pc : PeerConnection) (sdp : SessionDescription)
  | AddICECandidate (pc : PeerConnection) (c : ICECandidateInit)
  | Close (pc : PeerConnection)
  | GatheringCompletePromise (pc : PeerConnection)
  | SetBufferedAmountLowThreshold (ch : DataChannel) (n : Nat)
  | OnError (ch : DataChannel)
  | OnOpen (ch : DataChannel)
  | OnClose (ch : DataChannel)
  | Detach (ch : DataChannel)
  | ChannelClose (ch : DataChannel)
  | Write (rwc : ReadWriteCloser) (b : List UInt8)
  | Read (rwc : ReadWriteCloser) (b : List UInt8)
  | StreamClose (rwc : ReadWriteCloser)
  | OnTrickleICECandidate (handler : Nat) (c : ICECandidate)
  | ConnectionOpened (handler : Nat)
  | ConnectionClosed (handler : Nat)
  | SDPTransform (handler : Nat) (sdp : SessionDescription)
  | cb (f : DescriptionCallback) (sdp : SessionDescription)
deriving DecidableEq, Repr

/-- A closure the peer has handed to the engine.  Each one captures the peer; `OnError`,
`OnOpen` and `OnClose` also name the channel they were set on, which for `OnOpen` is the
captured variable `channel`. -/
inductive Callback where
  | OnICECandidate (pc : PeerConnection)
  | OnConnectionStateChange (pc : PeerConnection)
  | OnDataChannel (pc : PeerConnection)
  | OnError (ch : DataChannel)
  | OnOpen (ch : DataChannel)
  | OnClose (ch : DataChannel)
deriving DecidableEq, Repr

/-- The goroutine started by `CreateOffer` or `ReceiveOffer` in non-trickle mode, parked on
`<-gatherComplete`. -/
structure Goroutine where
  gatherComplete : Promise
  cb : DescriptionCallback
deriving DecidableEq, Repr

/-- Everything outside the `Peer` struct. -/
structure World (σ : Type) where
  engine : σ
  rng : List Nat
  callbacks : List Callback
  goroutines : List Goroutine
  trace : List Call

/-- Append one call to the trace. -/
def record {σ : Type} (c : Call) (w : World σ) : World σ :=
  { w with trace := w.trace ++ [c] }

/-- Perform an engine operation: record it and thread the engine state. -/
def call {σ α : Type} (c : Call) (f : σ → α × σ) (w : World σ) : α × World σ :=
  ((f w.engine).1, { w with engine := (f w.engine).2, trace := w.trace ++ [c] })

/-- Hand a closure to the engine: the registration is recorded and the closure kept. -/
def register {σ : Type} (c : Call) (k : Callback) (w : World σ) : World σ :=
  { w with callbacks := w.callbacks ++ [k], trace := w.trace ++ [c] }

/-! ## `randString` -/

/-- The constant `letterBytes`. -/
def letterBytes : String := "abcdefghijklmnopqrstuvwxyzABCDEFGHIJKLMNOPQRSTUVWXYZ123456789"

/-- One draw `rand.Intn(n)` from the random source; an exhausted source yields 0. -/
def randIntn (n : Nat) (rng : List Nat) : Nat × List Nat :=
  match rng with
  | [] => (0, [])
  | r :: rest => (r % n, rest)

/-- The function `randString`: `n` letters of `letterBytes`, each at a random index. -/
def randString (n : Nat) (rng : List Nat) : String × List Nat :=
  match n with
  | 0 => ("", rng)
  | k + 1 =>
    let d := randIntn letterBytes.length rng
    let r := randString k d.2
    (String.singleton (letterBytes.toList.getD d.1 'a') ++ r.1, r.2)

/-! ## The methods of `Peer` -/

/-- How a Go call that can panic ended. -/
inductive Outcome (α : Type) where
  | returned (a : α)
  | panicked
deriving DecidableEq, Repr

section Methods

variable {σ : Type}

/-- The method `Peer.IsClosed`. -/
def Peer.IsClosed (E : Engine σ) (p : Peer) (w : World σ) : Bool :=
  E.ConnectionState p.peerConnection w.engine == PeerConnectionState.Closed

/-- The method `Peer.IsConnected`. -/
def Peer.IsConnected (E : Engine σ) (p : Peer) (w : World σ) : Bool :=
  !p.IsClosed E w &&
    (match p.channel with
      | none => false
      | some channel =>
        p.channelRWC.isSome && (E.ReadyState channel w.engine == DataChannelState.Open))

/-- The first step of `Peer.close`: close the stream handle when there is one. -/
def closeStream (E : Engine σ) (p : Peer) (errs : List Error) (w : World σ) :
    List Error × World σ :=
  match p.channelRWC with
  | none => (errs, w)
  | some rwc =>
    let r := call (Call.StreamClose rwc) (E.StreamClose rwc) w
    (errs ++ [r.1], r.2)

/-- The second step of `Peer.close`: close the channel when there is one. -/
def closeChannel (E : Engine σ) (p : Peer) (errs : List Error) (w : World σ) :
    List Error × World σ :=
  match p.channel with
  | none => (errs, w)
  | some channel =>
    let r := call (Call.ChannelClose channel) (E.ChannelClose channel) w
    (errs ++ [r.1], r.2)

/-- The method `Peer.close(errs ...error)`. -/
def Peer.close (E : Engine σ) (p : Peer) (errs : List Error) (w : World σ) : Peer × World σ :=
  if p.IsClosed E w then
    (p, w)
  else
    let s := closeStream E p errs w
    let c := closeChannel E p s.1 s.2
    let r := call (Call.Close p.peerConnection) (E.Close p.peerConnection) c.2
    ({ p with AfterCloseErrors := errorsJoin (c.1 ++ [r.1]) }, r.2)

/-- The method `Peer.Close`. -/
def Peer.Close (E : Engine σ) (p : Peer) (w : World σ) : Error × Peer × World σ :=
  let r := p.close E [] w
  (r.1.AfterCloseErrors, r.1, r.2)

/-- The loop `for _, transform := range p.opts.handlers`: handler number `i` and its
successors transform the description in turn. -/
def transformLoop (hs : List Handler) (i : Nat) (d : SessionDescription) (w : World σ) :
    SessionDescription × World σ :=
  match hs with
  | [] => (d, w)
  | h :: rest => transformLoop rest (i + 1) (h.SDPTransform d) (record (Call.SDPTransform i d) w)

/-- The tail shared by `CreateOffer` and `ReceiveOffer` once the local description is
committed: in trickle mode `cb(*p.peerConnection.LocalDescription())` runs at once
(dereferencing nil panics); otherwise a goroutine is started that waits on
`gatherComplete` first. -/
def deliverLocal (E : Engine σ) (p : Peer) (gatherComplete : Promise)
    (cb : DescriptionCallback) (w : World σ) : Outcome Error × Peer × World σ :=
  if p.opts.trickle then
    match E.LocalDescription p.peerConnection w.engine with
    | none => (.panicked, p, w)
    | some ld => (.returned none, p, record (Call.cb cb ld) w)
  else
    (.returned none, p, { w with goroutines := w.goroutines ++ [⟨gatherComplete, cb⟩] })

/-- The method `Peer.CreateOffer`. -/
def Peer.CreateOffer (E : Engine σ) (p : Peer) (cb : DescriptionCallback) (w : World σ) :
    Outcome Error × Peer × World σ :=
  if !p.opts.initiator then
    (.returned (some (Err.new "speer: peer is not an initiator")), p, w)
  else
    let o := call (Call.CreateOffer p.peerConnection p.opts.offerOptions)
      (E.CreateOffer p.peerConnection p.opts.offerOptions) w
    match o.1 with
    | .error err => (.returned (some (Err.wrap "speer: failed to create offer: %w" err)), p, o.2)
    | .ok offer =>
      let t := transformLoop p.opts.handlers 0 offer o.2
      let g := call (Call.GatheringCompletePromise p.peerConnection)
        (E.GatheringCompletePromise p.peerConnection) t.2
      let l := call (Call.SetLocalDescription p.peerConnection t.1)
        (E.SetLocalDescription p.peerConnection t.1) g.2
      match l.1 with
      | some err =>
        (.returned (some (Err.wrap "speer: failed to create offer: %w" err)), p, l.2)
      | none => deliverLocal E p g.1 cb l.2

/-- The method `Peer.ReceiveOffer`. -/
def Peer.ReceiveOffer (E : Engine σ) (p : Peer) (sdp : SessionDescription)
    (cb : DescriptionCallback) (w : World σ) : Outcome Error × Peer × World σ :=
  if p.opts.initiator then
    (.returned (some (Err.new "speer: peer is an initiator")), p, w)
  else
    let r := call (Call.SetRemoteDescription p.peerConnection sdp)
      (E.SetRemoteDescription p.peerConnection sdp) w
    match r.1 with
    | some err =>
      (.returned (some (Err.wrap "speer: failed to set remote description: %w" err)), p, r.2)
    | none =>
      let a := call (Call.CreateAnswer p.peerConnection p.opts.answerOptions)
        (E.CreateAnswer p.peerConnection p.opts.answerOptions) r.2
      match a.1 with
      | .error err =>
        (.returned (some (Err.wrap "speer: failed to create answer: %w" err)), p, a.2)
      | .ok answer =>
        let t := transformLoop p.opts.handlers 0 answer a.2
        let g := call (Call.GatheringCompletePromise p.peerConnection)
          (E.GatheringCompletePromise p.peerConnection) t.2
        let l := call (Call.SetLocalDescription p.peerConnection t.1)
          (E.SetLocalDescription p.peerConnection t.1) g.2
        match l.1 with
        | some err =>
          (.returned (some (Err.wrap "speer: failed to set local description: %w" err)), p, l.2)
        | none => deliverLocal E p g.1 cb l.2

/-- The method `Peer.ReceiveAnswer`. -/
def Peer.ReceiveAnswer (E : Engine σ) (p : Peer) (sdp : SessionDescription) (w : World σ) :
    Error × Peer × World σ :=
  if !p.opts.initiator then
    (some (Err.new "speer: peer is not an initiator"), p, w)
  else
    let r := call (Call.SetRemoteDescription p.peerConnection sdp)
      (E.SetRemoteDescription p.peerConnection sdp) w
    (r.1, p, r.2)

/-- The method `Peer.AddICECandidate`. -/
def Peer.AddICECandidate (E : Engine σ) (p : Peer) (candidate : ICECandidateInit)
    (w : World σ) : Error × Peer × World σ :=
  let r := call (Call.AddICECandidate p.peerConnection candidate)
    (E.AddICECandidate p.peerConnection candidate) w
  (r.1, p, r.2)

/-- The calls `handler.OnTrickleICECandidate(c)` for handler number `i` and its
successors, in order. -/
def trickleCalls (hs : List Handler) (i : Nat) (c : ICECandidate) : List Call :=
  match hs with
  | [] => []
  | _ :: rest => Call.OnTrickleICECandidate i c :: trickleCalls rest (i + 1) c

/-- The method `Peer.onICECandidate`; a nil candidate is `none`. -/
def Peer.onICECandidate (p : Peer) (candidate : Option ICECandidate) (w : World σ) :
    Peer × World σ :=
  match candidate with
  | none => (p, w)
  | some c =>
    if p.opts.trickle then
      (p, { w with trace := w.trace ++ trickleCalls p.opts.handlers 0 c })
    else
      (p, w)

/-- The method `Peer.setupData`. -/
def Peer.setupData (E : Engine σ) (p : Peer) (channel : DataChannel) (w : World σ) :
    Peer × World σ :=
  let t := call (Call.SetBufferedAmountLowThreshold channel (64 * 1024))
    (E.SetBufferedAmountLowThreshold channel (64 * 1024)) w
  let w1 := register (Call.OnError channel) (Callback.OnError channel) t.2
  let w2 := register (Call.OnOpen channel) (Callback.OnOpen channel) w1
  let w3 := register (Call.OnClose channel) (Callback.OnClose channel) w2
  ({ p with channel := some channel }, w3)

/-- The method `Peer.Write`.  A connected peer has a stream handle, so the branch for a
missing handle after the `IsConnected` test is never taken. -/
def Peer.Write (E : Engine σ) (p : Peer) (b : List UInt8) (w : World σ) :
    (Int × Error) × Peer × World σ :=
  if !p.IsConnected E w then
    ((0, some (Err.new "speer: peer is not connected")), p, w)
  else
    match p.channelRWC with
    | none => ((0, some (Err.new "speer: peer is not connected")), p, w)
    | some rwc =>
      let r := call (Call.Write rwc b) (E.Write rwc b) w
      (r.1, p, r.2)

/-- The method `Peer.Read`; the third component of the result is the buffer `b` after the
call.  As in `Peer.Write`, the branch for a missing handle is never taken. -/
def Peer.Read (E : Engine σ) (p : Peer) (b : List UInt8) (w : World σ) :
    (Int × Error × List UInt8) × Peer × World σ :=
  if !p.IsConnected E w then
    ((0, some (Err.new "speer: peer is not connected"), b), p, w)
  else
    match p.channelRWC with
    | none => ((0, some (Err.new "speer: peer is not connected"), b), p, w)
    | some rwc =>
      let r := call (Call.Read rwc b) (E.Read rwc b) w
      (r.1, p, r.2)

/-- The defaults `NewPeer` starts from: the zero value of `options` with the two STUN
servers and unified-plan semantics. -/
def defaultOptions : options where
  initiator := false
  config :=
    { ICEServers := [⟨["stun:stun.l.google.com:19302", "stun:global.stun.twilio.com:3478"]⟩]
      SDPSemantics := SDPSemantics.UnifiedPlan }
  channelConfig := { Negotiated := none, ID := none }
  offerOptions := { ICERestart := false }
  answerOptions := { tag := 0 }
  trickle := false
  handlers := []

/-- The condition of `NewPeer` under which the channel is created at once:
`p.opts.initiator || (p.opts.channelConfig.Negotiated != nil && *p.opts.channelConfig.Negotiated)`. -/
def createsChannel (o : options) : Bool :=
  o.initiator ||
    (match o.channelConfig.Negotiated with
      | none => false
      | some negotiated => negotiated)

/-- The loop `for _, o := range opts { o(&p.opts) }` of `NewPeer`, from the defaults. -/
def resolve (opts : List peerOption) : options :=
  opts.foldl (fun acc f => f acc) defaultOptions

/-- The function `NewPeer`; `(nil, err)` is `Except.error err`. -/
def NewPeer (E : Engine σ) (opts : List peerOption) (w : World σ) : Except Err Peer × World σ :=
  let o := resolve opts
  let n := call (Call.NewPeerConnection o.config) (E.NewPeerConnection o.config) w
  match n.1 with
  | .error err => (.error err, n.2)
  | .ok inner =>
    let p : Peer :=
      { opts := o, peerConnection := inner, channel := none, channelRWC := none,
        AfterCloseErrors := none }
    let w1 := register (Call.OnICECandidate inner) (Callback.OnICECandidate inner) n.2
    let w2 := register (Call.OnConnectionStateChange inner)
      (Callback.OnConnectionStateChange inner) w1
    if createsChannel o then
      let l := randString 20 w2.rng
      let c := call (Call.CreateDataChannel inner l.1 o.channelConfig)
        (E.CreateDataChannel inner l.1 o.channelConfig) { w2 with rng := l.2 }
      match c.1 with
      | .error err => (.error err, c.2)
      | .ok channel =>
        let s := p.setupData E channel c.2
        (.ok s.1, s.2)
    else
      (.ok p, register (Call.OnDataChannel inner) (Callback.OnDataChannel inner) w2)

end Methods

/-! ## Events of the transport engine -/

section Events

variable {σ : Type}

/-- What the transport engine does on its own, between or after the calls of the peer:
it advances its own state, invokes a closure the peer registered, or completes a
gathering promise. -/
inductive Event (σ : Type) where
  | Internal (f : σ → σ)
  | ICECandidate (pc : PeerConnection) (candidate : Option ICECandidate)
  | ConnectionStateChange (pc : PeerConnection) (pcs : PeerConnectionState)
  | DataChannel (pc : PeerConnection) (c : DataChannel)
  | ChannelError (ch : DataChannel) (err : Error)
  | ChannelOpen (ch : DataChannel)
  | ChannelClose (ch : DataChannel)
  | GatherComplete (promise : Promise)

/-- The calls `handler.ConnectionClosed()` for handler number `i` and its successors. -/
def closedCalls (hs : List Handler) (i : Nat) : List Call :=
  match hs with
  | [] => []
  | _ :: rest => Call.ConnectionClosed i :: closedCalls rest (i + 1)

/-- The calls `handler.ConnectionOpened()` for handler number `i` and its successors. -/
def openedCalls (hs : List Handler) (i : Nat) : List Call :=
  match hs with
  | [] => []
  | _ :: rest => Call.ConnectionOpened i :: openedCalls rest (i + 1)

/-- The closure given to `OnConnectionStateChange` in `NewPeer`. -/
def onConnectionStateChange (p : Peer) (pcs : PeerConnectionState) (w : World σ) : World σ :=
  if pcs = PeerConnectionState.Closed then
    { w with trace := w.trace ++ closedCalls p.opts.handlers 0 }
  else
    w

/-- The closure given to `OnOpen` in `setupData`, for the captured `channel`:
`must(channel.Detach())` panics when `Detach` fails. -/
def onOpen (E : Engine σ) (p : Peer) (channel : DataChannel) (w : World σ) :
    Outcome Unit × Peer × World σ :=
  let d := call (Call.Detach channel) (E.Detach channel) w
  match d.1 with
  | .error _ => (.panicked, p, d.2)
  | .ok rwc =>
    (.returned (), { p with channelRWC := some rwc },
      { d.2 with trace := d.2.trace ++ openedCalls p.opts.handlers 0 })

/-- The goroutines whose `<-gatherComplete` has returned run
`cb(*p.peerConnection.LocalDescription())`, in the order they were started. -/
def resume (E : Engine σ) (p : Peer) (gs : List Goroutine) (w : World σ) :
    Outcome Unit × World σ :=
  match gs with
  | [] => (.returned (), w)
  | g :: rest =>
    match E.LocalDescription p.peerConnection w.engine with
    | none => (.panicked, w)
    | some ld => resume E p rest (record (Call.cb g.cb ld) w)

/-- Deliver one engine event to the peer.  A closure runs only if it was registered. -/
def deliver (E : Engine σ) (ev : Event σ) (p : Peer) (w : World σ) :
    Outcome Unit × Peer × World σ :=
  match ev with
  | .Internal f => (.returned (), p, { w with engine := f w.engine })
  | .ICECandidate pc candidate =>
    if Callback.OnICECandidate pc ∈ w.callbacks then
      (.returned (), p.onICECandidate candidate w)
    else (.returned (), p, w)
  | .ConnectionStateChange pc pcs =>
    if Callback.OnConnectionStateChange pc ∈ w.callbacks then
      (.returned (), p, onConnectionStateChange p pcs w)
    else (.returned (), p, w)
  | .DataChannel pc c =>
    if Callback.OnDataChannel pc ∈ w.callbacks then (.returned (), p.setupData E c w)
    else (.returned (), p, w)
  | .ChannelError ch err =>
    if Callback.OnError ch ∈ w.callbacks then (.returned (), p.close E [err] w)
    else (.returned (), p, w)
  | .ChannelOpen ch =>
    if Callback.OnOpen ch ∈ w.callbacks then onOpen E p ch w
    else (.returned (), p, w)
  | .ChannelClose ch =>
    if Callback.OnClose ch ∈ w.callbacks then (.returned (), p.close E [] w)
    else (.returned (), p, w)
  | .GatherComplete promise =>
    let r := resume E p (w.goroutines.filter (fun g => g.gatherComplete = promise))
      { w with goroutines := w.goroutines.filter (fun g => ¬ g.gatherComplete = promise) }
    (r.1, p, r.2)

/-- Deliver a sequence of engine events, stopping at a panic. -/
def run (E : Engine σ) (evs : List (Event σ)) (p : Peer) (w : World σ) :
    Outcome Unit × Peer × World σ :=
  match evs with
  | [] => (.returned (), p, w)
  | ev :: rest =>
    match deliver E ev p w with
    | (.panicked, p1, w1) => (.panicked, p1, w1)
    | (.returned _, p1, w1) => run E rest p1 w1

end Events

/-! ## A small concrete engine

Used to evaluate the methods on concrete inputs. -/

/-- The state of the concrete engine: what it has been told, and scripted failures. -/
structure ToyState where
  closed : Bool
  localDescription : Option SessionDescription
  remoteDescription : Option SessionDescription
  channelOpen : Bool
  sent : List UInt8
  failStreamClose : Bool
  failChannelClose : Bool
  failClose : Bool
  nextPromise : Nat
deriving DecidableEq, Repr

/-- A concrete engine: one connection, one channel, one stream; a description with an
empty body is rejected; closing fails where the state says so. -/
def toyEngine : Engine ToyState where
  NewPeerConnection := fun _ s => (.ok ⟨1⟩, s)
  CreateDataChannel := fun _ _ _ s => (.ok ⟨7⟩, s)
  CreateOffer := fun _ _ s => (.ok ⟨"offer"⟩, s)
  CreateAnswer := fun _ _ s => (.ok ⟨"answer"⟩, s)
  SetLocalDescription := fun _ d s => (none, { s with localDescription := some d })
  SetRemoteDescription := fun _ d s =>
    if d.sdp = "" then (some (Err.new "invalid description"), s)
    else (none, { s with remoteDescription := some d })
  LocalDescription := fun _ s => s.localDescription
  AddICECandidate := fun _ _ s => (none, s)
  ConnectionState := fun _ s =>
    if s.closed then PeerConnectionState.Closed else PeerConnectionState.Connected
  Close := fun _ s =>
    (if s.failClose then some (Err.new "connection close failed") else none,
      { s with closed := true })
  GatheringCompletePromise := fun _ s => (⟨s.nextPromise⟩, { s with nextPromise := s.nextPromise + 1 })
  ReadyState := fun _ s =>
    if s.channelOpen then DataChannelState.Open else DataChannelState.Connecting
  SetBufferedAmountLowThreshold := fun _ _ s => ((), s)
  Detach := fun ch s => (.ok ⟨ch.id + 2⟩, s)
  ChannelClose := fun _ s =>
    (if s.failChannelClose then some (Err.new "channel close failed") else none,
      { s with channelOpen := false })
  Write := fun _ b s => ((b.length, none), { s with sent := s.sent ++ b })
  Read := fun _ b s => ((min b.length s.sent.length, none, s.sent.take b.length), { s with sent := s.sent.drop b.length })
  StreamClose := fun _ s =>
    (if s.failStreamClose then some (Err.new "stream close failed") else none, s)

/-- A fresh state of the concrete engine. -/
def toyState : ToyState where
  closed := false
  localDescription := none
  remoteDescription := none
  channelOpen := false
  sent := []
  failStreamClose := false
  failChannelClose := false
  failClose := false
  nextPromise := 0

/-- A world around the concrete engine in which nothing has happened yet. -/
def toyWorld (s : ToyState) : World ToyState where
  engine := s
  rng := [3, 64, 200]
  callbacks := []
  goroutines := []
  trace := []

/-- A handler whose transform appends a mark to the description. -/
def markHandler (mark : String) : Handler where
  SDPTransform := fun d => ⟨d.sdp ++ mark⟩

/-- A peer over the concrete engine with the given role and trickle mode, two marking
handlers, no channel and no stream. -/
def toyPeer (initiator trickle : Bool) : Peer where
  opts := { defaultOptions with
    initiator := initiator, trickle := trickle, handlers := [markHandler "a", markHandler "b"] }
  peerConnection := ⟨1⟩
  channel := none
  channelRWC := none
  AfterCloseErrors := none

/-- A peer over the concrete engine that holds channel 7 and stream 9. -/
def toyConnectedPeer : Peer :=
  { toyPeer true false with channel := some ⟨7⟩, channelRWC := some ⟨9⟩ }

/-- The state of the concrete engine in which the channel is open and closing the stream
and the connection fails. -/
def toyFailing : ToyState :=
  { toyState with channelOpen := true, failStreamClose := true, failClose := true }

/-- A concrete engine that differs from `toyEngine` in `Close` only: the call fails where
the state says so, once, and the connection does not come to report the closed state. -/
def lingeringEngine : Engine ToyState :=
  { toyEngine with
    Close := fun _ s =>
      (if s.failClose then some (Err.new "connection close failed") else none,
        { s with failClose := false }) }

/-! ## The teardown steps, as the specification lists them -/

/-- The close operations the specification prescribes for a peer, in order: the stream
handle if present, the channel if present, the connection. -/
def closeSteps (p : Peer) : List Call :=
  (match p.channelRWC with
    | none => []
    | some rwc => [Call.StreamClose rwc]) ++
  (match p.channel with
    | none => []
    | some ch => [Call.ChannelClose ch]) ++
  [Call.Close p.peerConnection]

/-- Perform one close operation on the engine. -/
def closeStep {σ : Type} (E : Engine σ) (c : Call) (s : σ) : Error × σ :=
  match c with
  | .StreamClose rwc => E.StreamClose rwc s
  | .ChannelClose ch => E.ChannelClose ch s
  | .Close pc => E.Close pc s
  | _ => (none, s)

/-- Perform every close operation of the list in order, whatever the earlier ones
returned, and collect what each returned. -/
def attemptAll {σ : Type} (E : Engine σ) (cs : List Call) (s : σ) : List Error × σ :=
  match cs with
  | [] => ([], s)
  | c :: rest => ((closeStep E c s).1 :: (attemptAll E rest (closeStep E c s).2).1,
      (attemptAll E rest (closeStep E c s).2).2)

/-! ## The transform chain, as the specification states it -/

/-- The left-to-right fold of the handlers' transforms over a description:
`hn.SDPTransform(... h2.SDPTransform(h1.SDPTransform(d)) ...)`. -/
def chain (hs : List Handler) (d : SessionDescription) : SessionDescription :=
  hs.foldl (fun acc h => h.SDPTransform acc) d

/-- One `SDPTransform` call per handler, in registration order, the handler at position
`k` receiving what the handlers before it made of `d`. -/
def chainCalls (hs : List Handler) (d : SessionDescription) : List Call :=
  (List.range hs.length).map (fun k => Call.SDPTransform k (chain (hs.take k) d))

/-! ## Channel creation at construction, as the specification states it -/

/-- The condition under which the specification has `NewPeer` create the channel at once:
the role is Initiator, or the channel config specifies a pre-negotiated channel with an
explicit identifier. -/
def specCreatesChannel (o : options) : Bool :=
  o.initiator || (o.channelConfig.Negotiated == some true && o.channelConfig.ID.isSome)

/-- The peer `NewPeer` starts from once the connection `inner` exists. -/
def freshPeer (o : options) (inner : PeerConnection) : Peer where
  opts := o
  peerConnection := inner
  channel := none
  channelRWC := none
  AfterCloseErrors := none

/-! ## Counting the invocations of a description callback -/

/-- The world after `NewPeer` has built a default (responder) peer over the concrete
engine. -/
def toyResponderWorld : World ToyState :=
  (NewPeer toyEngine [] (toyWorld toyState)).2

/-- The peer `NewPeer` builds with no options over the concrete engine. -/
def toyResponder : Peer :=
  freshPeer (resolve []) ⟨1⟩

/-! ## Theorems -/

section Theorems

variable {σ : Type}

/-- C1 (role gating): in every state, `CreateOffer` on a peer that is not an initiator,
`ReceiveOffer` on a peer that is an initiator and `ReceiveAnswer` on a peer that is not an
initiator each return a non-nil error, and leave both the peer and the world as they were:
no engine operation is traced, no handler or description callback is invoked, and no
goroutine is started. -/
theorem role_gating (E : Engine σ) (p : Peer) (w : World σ) :
    (p.opts.initiator = false → ∀ cb,
      p.CreateOffer E cb w =
        (.returned (some (Err.new "speer: peer is not an initiator")), p, w)) ∧
    (p.opts.initiator = true → ∀ sdp cb,
      p.ReceiveOffer E sdp cb w =
        (.returned (some (Err.new "speer: peer is an initiator")), p, w)) ∧
    (p.opts.initiator = false → ∀ sdp,
      p.ReceiveAnswer E sdp w = (some (Err.new "speer: peer is not an initiator"), p, w)) := by
  refine ⟨?_, ?_, ?_⟩
  · intro h cb
    simp [Peer.CreateOffer, h]
  · intro h sdp cb
    simp [Peer.ReceiveOffer, h]
  · intro h sdp
    simp [Peer.ReceiveAnswer, h]

/-- Witness of C1 on the concrete engine: a responder creating an offer, an initiator
receiving an offer, a responder receiving an answer. -/
theorem role_gating_witness :
    ((toyPeer false true).opts.initiator = false ∧
      (toyPeer false true).CreateOffer toyEngine ⟨0⟩ (toyWorld toyState) =
        (.returned (some (Err.new "speer: peer is not an initiator")), toyPeer false true,
          toyWorld toyState)) ∧
    ((toyPeer true true).opts.initiator = true ∧
      (toyPeer true true).ReceiveOffer toyEngine ⟨"offer"⟩ ⟨0⟩ (toyWorld toyState) =
        (.returned (some (Err.new "speer: peer is an initiator")), toyPeer true true,
          toyWorld toyState)) ∧
    ((toyPeer false true).opts.initiator = false ∧
      (toyPeer false true).ReceiveAnswer toyEngine ⟨"answer"⟩ (toyWorld toyState) =
        (some (Err.new "speer: peer is not an initiator"), toyPeer false true,
          toyWorld toyState)) :=
  ⟨⟨rfl, (role_gating toyEngine (toyPeer false true) (toyWorld toyState)).1 rfl ⟨0⟩⟩,
    ⟨rfl, (role_gating toyEngine (toyPeer true true) (toyWorld toyState)).2.1 rfl ⟨"offer"⟩ ⟨0⟩⟩,
    ⟨rfl, (role_gating toyEngine (toyPeer false true) (toyWorld toyState)).2.2 rfl ⟨"answer"⟩⟩⟩

/-- The peer is not connected exactly when the connection is closed, or there is no
channel, or there is no detached stream, or the channel does not report open. -/
theorem IsConnected_eq_false_iff (E : Engine σ) (p : Peer) (w : World σ) :
    p.IsConnected E w = false ↔
      (E.ConnectionState p.peerConnection w.engine = PeerConnectionState.Closed ∨
        p.channel = none ∨ p.channelRWC = none ∨
        ∃ ch, p.channel = some ch ∧ E.ReadyState ch w.engine ≠ DataChannelState.Open) := by
  unfold Peer.IsConnected Peer.IsClosed
  cases hc : p.channel with
  | none => simp
  | some ch =>
    cases hr : p.channelRWC with
    | none => simp
    | some rwc =>
      by_cases h1 : E.ConnectionState p.peerConnection w.engine = PeerConnectionState.Closed
      · simp [h1]
      · by_cases h2 : E.ReadyState ch w.engine = DataChannelState.Open
        · simp [h1, h2]
        · simp [h1, h2]

/-- A connected peer has a detached stream. -/
theorem IsConnected_stream (E : Engine σ) (p : Peer) (w : World σ)
    (h : p.IsConnected E w = true) : ∃ rwc, p.channelRWC = some rwc := by
  unfold Peer.IsConnected at h
  cases hc : p.channel with
  | none => simp [hc] at h
  | some ch =>
    cases hr : p.channelRWC with
    | none => simp [hc, hr] at h
    | some rwc => exact ⟨rwc, rfl⟩

/-- C2 (read/write gating): in every state and for every buffer `b`, a peer that is not
connected (connection closed, or no channel, or no detached stream, or channel not
reporting open) answers `Write(b)` and `Read(b)` with `(0, not-connected error)`, leaving
the buffer, the peer and the world untouched, so that no operation reaches the stream; a
connected peer has a stream handle, performs exactly the one `Write(b)` / `Read(b)` on it,
and returns the count and error of that call unchanged. -/
theorem read_write_gating (E : Engine σ) (p : Peer) (w : World σ) (b : List UInt8) :
    (p.IsConnected E w = false ↔
      (E.ConnectionState p.peerConnection w.engine = PeerConnectionState.Closed ∨
        p.channel = none ∨ p.channelRWC = none ∨
        ∃ ch, p.channel = some ch ∧ E.ReadyState ch w.engine ≠ DataChannelState.Open)) ∧
    (p.IsConnected E w = false →
      p.Write E b w = ((0, some (Err.new "speer: peer is not connected")), p, w) ∧
      p.Read E b w = ((0, some (Err.new "speer: peer is not connected"), b), p, w)) ∧
    (p.IsConnected E w = true →
      ∃ rwc, p.channelRWC = some rwc ∧
        p.Write E b w = ((E.Write rwc b w.engine).1, p,
          { w with engine := (E.Write rwc b w.engine).2,
                   trace := w.trace ++ [Call.Write rwc b] }) ∧
        p.Read E b w = ((E.Read rwc b w.engine).1, p,
          { w with engine := (E.Read rwc b w.engine).2,
                   trace := w.trace ++ [Call.Read rwc b] })) := by
  refine ⟨IsConnected_eq_false_iff E p w, ?_, ?_⟩
  · intro h
    simp [Peer.Write, Peer.Read, h]
  · intro h
    obtain ⟨rwc, hr⟩ := IsConnected_stream E p w h
    exact ⟨rwc, hr, by simp [Peer.Write, h, hr, call], by simp [Peer.Read, h, hr, call]⟩

/-- Witness of C2 on the concrete engine: a peer without channel is refused, and a peer
with an open channel writes the three bytes to stream 9 and gets the stream's answer
`(3, nil)`. -/
theorem read_write_gating_witness :
    ((toyPeer true false).IsConnected toyEngine (toyWorld toyState) = false ∧
      (toyPeer true false).Write toyEngine [1, 2, 3] (toyWorld toyState) =
        ((0, some (Err.new "speer: peer is not connected")), toyPeer true false,
          toyWorld toyState)) ∧
    (toyConnectedPeer.IsConnected toyEngine (toyWorld { toyState with channelOpen := true }) = true ∧
      ∃ rwc, toyConnectedPeer.channelRWC = some rwc ∧
        (toyConnectedPeer.Write toyEngine [1, 2, 3]
          (toyWorld { toyState with channelOpen := true })).1 = (3, none) ∧
        (toyConnectedPeer.Write toyEngine [1, 2, 3]
          (toyWorld { toyState with channelOpen := true })).2.2.trace =
            [Call.Write rwc [1, 2, 3]]) :=
  ⟨⟨rfl, ((read_write_gating toyEngine (toyPeer true false) (toyWorld toyState) [1, 2, 3]).2.1
      rfl).1⟩,
    ⟨rfl, by
      obtain ⟨rwc, hr, hw, _⟩ :=
        (read_write_gating toyEngine toyConnectedPeer
          (toyWorld { toyState with channelOpen := true }) [1, 2, 3]).2.2 rfl
      refine ⟨rwc, hr, ?_, ?_⟩
      · rw [hw]
        cases hr
        rfl
      · rw [hw]
        rfl⟩⟩

mutual
/-- An error equals itself. -/
theorem Err.beq_self : ∀ e : Err, Err.beq e e = true
  | .new a => by simp [Err.beq]
  | .wrap a x => by simp [Err.beq, Err.beq_self x]
  | .join xs => by simp [Err.beq, Err.beqList_self xs]
/-- A list of errors equals itself. -/
theorem Err.beqList_self : ∀ es : List Err, Err.beqList es es = true
  | [] => by simp [Err.beqList]
  | x :: xs => by simp [Err.beqList, Err.beq_self x, Err.beqList_self xs]
end

/-- The test `errors.Is(e, e)` succeeds. -/
theorem Err.is_self (e : Err) : Err.is e e = true := by
  cases e <;> simp [Err.is, Err.beq_self]

/-- A member of a list is found by the search of `errors.Is`. -/
theorem Err.isAny_of_mem (t : Err) (es : List Err) (h : t ∈ es) : Err.isAny t es = true := by
  induction es with
  | nil => simp at h
  | cons e rest ih =>
    rcases List.mem_cons.mp h with h1 | h1
    · subst h1
      simp [Err.isAny, Err.is_self]
    · simp [Err.isAny, ih h1]

/-- The join is nil exactly when every joined error is nil. -/
theorem errorsJoin_eq_none_iff (errs : List Error) :
    errorsJoin errs = none ↔ ∀ e ∈ errs, e = none := by
  unfold errorsJoin
  cases h : errs.filterMap id with
  | nil =>
    simp only [true_iff]
    intro e he
    cases e with
    | none => rfl
    | some x =>
      have : x ∈ errs.filterMap id := List.mem_filterMap.mpr ⟨some x, he, rfl⟩
      rw [h] at this
      simp at this
  | cons x rest =>
    simp only [false_iff, reduceCtorEq]
    intro hall
    have hx : x ∈ errs.filterMap id := by rw [h]; simp
    obtain ⟨a, ha, hax⟩ := List.mem_filterMap.mp hx
    rw [hall a ha] at hax
    simp at hax

/-- The join contains, for `errors.Is`, every non-nil error that was joined. -/
theorem errorsIs_errorsJoin (errs : List Error) (e : Err) (h : some e ∈ errs) :
    errorsIs (errorsJoin errs) (some e) = true := by
  have hmem : e ∈ errs.filterMap id := List.mem_filterMap.mpr ⟨some e, h, rfl⟩
  unfold errorsJoin
  cases hf : errs.filterMap id with
  | nil => rw [hf] at hmem; simp at hmem
  | cons x rest =>
    rw [hf] at hmem
    simp [errorsIs, Err.is, Err.isAny_of_mem e (x :: rest) hmem]

/-- On a closed connection `close` does nothing, whatever errors it is given. -/
theorem close_of_IsClosed (E : Engine σ) (p : Peer) (errs : List Error) (w : World σ)
    (h : p.IsClosed E w = true) : p.close E errs w = (p, w) := by
  simp [Peer.close, h]

/-- What `close` does on a connection that is not closed, in terms of the prescribed
steps. -/
theorem close_of_not_IsClosed (E : Engine σ) (p : Peer) (errs : List Error) (w : World σ)
    (h : p.IsClosed E w = false) :
    p.close E errs w =
      ({ p with AfterCloseErrors := errorsJoin (errs ++ (attemptAll E (closeSteps p) w.engine).1) },
        { w with engine := (attemptAll E (closeSteps p) w.engine).2,
                 trace := w.trace ++ closeSteps p }) := by
  cases hr : p.channelRWC <;> cases hc : p.channel <;>
    simp [Peer.close, h, closeStream, closeChannel, closeSteps, attemptAll, closeStep, call,
      hr, hc, List.append_assoc]

/-- C3, as stated, fails: over an engine whose connection does not report the closed
state after `Close`, the first `Close` of a peer with channel and stream returns the
connection's close error, and the second `Close` closes the stream, the channel and the
connection once more, returns nil and overwrites `AfterCloseErrors` with nil. -/
theorem Close_twice_counterexample :
    (toyConnectedPeer.Close lingeringEngine (toyWorld { toyState with failClose := true })).1 =
      some (Err.join [Err.new "connection close failed"]) ∧
    ((toyConnectedPeer.Close lingeringEngine
        (toyWorld { toyState with failClose := true })).2.1.Close lingeringEngine
      (toyConnectedPeer.Close lingeringEngine
        (toyWorld { toyState with failClose := true })).2.2).1 = none ∧
    ((toyConnectedPeer.Close lingeringEngine
        (toyWorld { toyState with failClose := true })).2.1.Close lingeringEngine
      (toyConnectedPeer.Close lingeringEngine
        (toyWorld { toyState with failClose := true })).2.2).2.1.AfterCloseErrors = none ∧
    ((toyConnectedPeer.Close lingeringEngine
        (toyWorld { toyState with failClose := true })).2.1.Close lingeringEngine
      (toyConnectedPeer.Close lingeringEngine
        (toyWorld { toyState with failClose := true })).2.2).2.2.trace =
      [Call.StreamClose ⟨9⟩, Call.ChannelClose ⟨7⟩, Call.Close ⟨1⟩,
        Call.StreamClose ⟨9⟩, Call.ChannelClose ⟨7⟩, Call.Close ⟨1⟩] := by
  refine ⟨rfl, rfl, rfl, by decide⟩

/-- C3, amended: `Close` on a peer whose connection is already in the closed state returns
the stored `AfterCloseErrors` and changes neither the peer nor the world (no stream,
channel or connection close is performed).  Hence a second `Close` right after a first
returns the same error, performs no operation and leaves `AfterCloseErrors` as the first
call set it, whenever the connection is in the closed state after the first call; that is
so for every engine that reports a connection as closed once its `Close` has run.  In
every case the error `Close` returns is the one it leaves in `AfterCloseErrors`. -/
theorem Close_on_closed (E : Engine σ) (p : Peer) (w : World σ) :
    (p.IsClosed E w = true → p.Close E w = (p.AfterCloseErrors, p, w)) ∧
    ((p.Close E w).2.1.IsClosed E (p.Close E w).2.2 = true →
      (p.Close E w).2.1.Close E (p.Close E w).2.2 = p.Close E w) ∧
    ((∀ s, E.ConnectionState p.peerConnection (E.Close p.peerConnection s).2 =
        PeerConnectionState.Closed) →
      (p.Close E w).2.1.IsClosed E (p.Close E w).2.2 = true) ∧
    (p.Close E w).1 = (p.Close E w).2.1.AfterCloseErrors := by
  refine ⟨?_, ?_, ?_, rfl⟩
  · intro h
    simp [Peer.Close, close_of_IsClosed E p [] w h]
  · intro h
    have h2 : (p.close E [] w).1.IsClosed E (p.close E [] w).2 = true := h
    simp [Peer.Close, close_of_IsClosed E _ [] _ h2]
  · intro hE
    cases h : p.IsClosed E w with
    | true => simpa [Peer.Close, close_of_IsClosed E p [] w h] using h
    | false =>
      have h1 := h
      simp only [Peer.IsClosed, beq_eq_false_iff_ne, ne_eq] at h1
      simp [Peer.Close, Peer.close, Peer.IsClosed, h1, call, hE]

/-- Witness of C3 as amended, on the concrete engine whose `Close` marks the connection
closed: the connection is open before the first `Close` and closed after it, the first
`Close` returns the connection's close error, and the second returns the same triple. -/
theorem Close_on_closed_witness :
    toyConnectedPeer.IsClosed toyEngine (toyWorld { toyState with failClose := true }) = false ∧
    (toyConnectedPeer.Close toyEngine (toyWorld { toyState with failClose := true })).2.1.IsClosed
      toyEngine (toyConnectedPeer.Close toyEngine
        (toyWorld { toyState with failClose := true })).2.2 = true ∧
    (toyConnectedPeer.Close toyEngine (toyWorld { toyState with failClose := true })).2.1.Close
        toyEngine (toyConnectedPeer.Close toyEngine
          (toyWorld { toyState with failClose := true })).2.2 =
      toyConnectedPeer.Close toyEngine (toyWorld { toyState with failClose := true }) ∧
    (toyConnectedPeer.Close toyEngine (toyWorld { toyState with failClose := true })).1 =
      some (Err.join [Err.new "connection close failed"]) :=
  ⟨rfl, rfl,
    (Close_on_closed toyEngine toyConnectedPeer
      (toyWorld { toyState with failClose := true })).2.1 rfl,
    rfl⟩

/-- C4 (Close aggregation): on a peer whose connection is not yet closed, `Close` performs
the prescribed steps in order (the stream handle if present, the channel if present, the
connection), each one whatever the earlier ones returned and nothing else; the error it
returns is the one it stores in `AfterCloseErrors`, namely the join of what the steps
returned; it is nil exactly when every step returned nil, and otherwise `errors.Is` finds
in it the error of every step that failed. -/
theorem Close_aggregation (E : Engine σ) (p : Peer) (w : World σ)
    (h : p.IsClosed E w = false) :
    (p.Close E w).2.2 =
        { w with engine := (attemptAll E (closeSteps p) w.engine).2,
                 trace := w.trace ++ closeSteps p } ∧
      (attemptAll E (closeSteps p) w.engine).1.length = (closeSteps p).length ∧
      (p.Close E w).2.1 =
        { p with AfterCloseErrors := errorsJoin (attemptAll E (closeSteps p) w.engine).1 } ∧
      (p.Close E w).1 = (p.Close E w).2.1.AfterCloseErrors ∧
      ((p.Close E w).1 = none ↔ ∀ e ∈ (attemptAll E (closeSteps p) w.engine).1, e = none) ∧
      (∀ e, some e ∈ (attemptAll E (closeSteps p) w.engine).1 →
        errorsIs (p.Close E w).1 (some e) = true) := by
  have hlen : ∀ (cs : List Call) (s : σ), (attemptAll E cs s).1.length = cs.length := by
    intro cs
    induction cs with
    | nil => intro s; rfl
    | cons c rest ih => intro s; simp [attemptAll, ih]
  have hc := close_of_not_IsClosed E p [] w h
  simp only [List.nil_append] at hc
  refine ⟨by simp [Peer.Close, hc], hlen _ _, by simp [Peer.Close, hc], by simp [Peer.Close], ?_, ?_⟩
  · simp only [Peer.Close, hc]
    exact errorsJoin_eq_none_iff _
  · intro e he
    simp only [Peer.Close, hc]
    exact errorsIs_errorsJoin _ e he

/-- Witness of C4 on the concrete engine: with stream and connection failing to close and
the channel closing cleanly, all three steps are performed in order and both failures are
found in the returned error. -/
theorem Close_aggregation_witness :
    toyConnectedPeer.IsClosed toyEngine (toyWorld toyFailing) = false ∧
    (toyConnectedPeer.Close toyEngine (toyWorld toyFailing)).2.2.trace =
      [Call.StreamClose ⟨9⟩, Call.ChannelClose ⟨7⟩, Call.Close ⟨1⟩] ∧
    (toyConnectedPeer.Close toyEngine (toyWorld toyFailing)).1 =
      some (Err.join [Err.new "stream close failed", Err.new "connection close failed"]) ∧
    errorsIs (toyConnectedPeer.Close toyEngine (toyWorld toyFailing)).1
      (some (Err.new "stream close failed")) = true :=
  ⟨rfl,
    by rw [(Close_aggregation toyEngine toyConnectedPeer (toyWorld toyFailing) rfl).1]; rfl,
    rfl,
    (Close_aggregation toyEngine toyConnectedPeer (toyWorld toyFailing) rfl).2.2.2.2.2
      (Err.new "stream close failed") (by simp [attemptAll, closeSteps, closeStep, toyConnectedPeer, toyEngine, toyFailing, toyWorld, toyState, toyPeer])⟩

/-- The calls of the transform loop started at handler number `i`. -/
theorem transformLoop_eq (hs : List Handler) (i : Nat) (d : SessionDescription) (w : World σ) :
    transformLoop hs i d w =
      (chain hs d,
        { w with trace := w.trace ++
            (List.range hs.length).map (fun k => Call.SDPTransform (i + k) (chain (hs.take k) d)) }) := by
  induction hs generalizing i d w with
  | nil => simp [transformLoop, chain]
  | cons h rest ih =>
    rw [transformLoop, ih]
    simp only [chain, List.foldl_cons, List.length_cons, record, List.range_succ_eq_map,
      List.map_cons, List.map_map, List.append_assoc, List.singleton_append, Nat.add_zero,
      List.take_zero, List.foldl_nil, Prod.mk.injEq, true_and]
    congr 3
    apply List.map_congr_left
    intro k _
    simp [Nat.add_assoc, Nat.add_comm 1 k]

/-- The transform loop of `CreateOffer` and `ReceiveOffer`, which starts at handler 0. -/
theorem transformLoop_zero (hs : List Handler) (d : SessionDescription) (w : World σ) :
    transformLoop hs 0 d w = (chain hs d, { w with trace := w.trace ++ chainCalls hs d }) := by
  rw [transformLoop_eq]
  simp [chainCalls]

/-- What `deliverLocal` adds to the trace: nothing, or one call of the callback. -/
theorem deliverLocal_trace (E : Engine σ) (p : Peer) (g : Promise) (cb : DescriptionCallback)
    (w : World σ) :
    (deliverLocal E p g cb w).2.2.trace = w.trace ∨
      ∃ ld, (deliverLocal E p g cb w).2.2.trace = w.trace ++ [Call.cb cb ld] := by
  unfold deliverLocal
  cases p.opts.trickle with
  | false => simp
  | true =>
    cases E.LocalDescription p.peerConnection w.engine with
    | none => simp
    | some ld => exact Or.inr ⟨ld, by simp [record]⟩

/-- C5 (transform chaining): when the engine generates the offer `d` for an initiator's
`CreateOffer` (resp. the answer `d` for a responder's `ReceiveOffer`, after accepting the
remote description), the handlers' `SDPTransform` are called once each in registration
order, each on the previous one's output, and the one `SetLocalDescription` that follows
is given their left-to-right fold over `d`; nothing but at most one call of the
description callback comes after it.  With no handlers, or only `NOOPHandler`, the fold
is `d` itself. -/
theorem transform_chaining (E : Engine σ) (p : Peer) (w : World σ) (cb : DescriptionCallback)
    (sdp d : SessionDescription) :
    (p.opts.initiator = true →
      (E.CreateOffer p.peerConnection p.opts.offerOptions w.engine).1 = .ok d →
      ∃ tail, (tail = [] ∨ ∃ ld, tail = [Call.cb cb ld]) ∧
        (p.CreateOffer E cb w).2.2.trace =
          w.trace ++ [Call.CreateOffer p.peerConnection p.opts.offerOptions] ++
            chainCalls p.opts.handlers d ++
            [Call.GatheringCompletePromise p.peerConnection,
              Call.SetLocalDescription p.peerConnection (chain p.opts.handlers d)] ++ tail) ∧
    (p.opts.initiator = false →
      (E.SetRemoteDescription p.peerConnection sdp w.engine).1 = none →
      (E.CreateAnswer p.peerConnection p.opts.answerOptions
        (E.SetRemoteDescription p.peerConnection sdp w.engine).2).1 = .ok d →
      ∃ tail, (tail = [] ∨ ∃ ld, tail = [Call.cb cb ld]) ∧
        (p.ReceiveOffer E sdp cb w).2.2.trace =
          w.trace ++ [Call.SetRemoteDescription p.peerConnection sdp,
              Call.CreateAnswer p.peerConnection p.opts.answerOptions] ++
            chainCalls p.opts.handlers d ++
            [Call.GatheringCompletePromise p.peerConnection,
              Call.SetLocalDescription p.peerConnection (chain p.opts.handlers d)] ++ tail) ∧
    chainCalls p.opts.handlers d =
      (List.range p.opts.handlers.length).map
        (fun k => Call.SDPTransform k (chain (p.opts.handlers.take k) d)) ∧
    (∀ hs h, chain (hs ++ [h]) d = h.SDPTransform (chain hs d)) ∧
    chain [] d = d ∧
    (∀ hs, (∀ h ∈ hs, h = NOOPHandler) → chain hs d = d) := by
  refine ⟨?_, ?_, rfl, ?_, rfl, ?_⟩
  · intro hi hd
    simp only [Peer.CreateOffer, hi, call, hd, transformLoop_zero, Bool.not_true,
      Bool.false_eq_true, if_false]
    split
    · exact ⟨[], Or.inl rfl, by simp⟩
    · rcases deliverLocal_trace E p (E.GatheringCompletePromise p.peerConnection
          (E.CreateOffer p.peerConnection p.opts.offerOptions w.engine).2).1 cb
          _ with ht | ⟨ld, ht⟩
      · exact ⟨[], Or.inl rfl, by rw [ht]; simp⟩
      · exact ⟨[Call.cb cb ld], Or.inr ⟨ld, rfl⟩, by rw [ht]; simp⟩
  · intro hi hr hd
    simp only [Peer.ReceiveOffer, hi, call, hr, hd, transformLoop_zero,
      Bool.false_eq_true, if_false]
    split
    · exact ⟨[], Or.inl rfl, by simp⟩
    · rcases deliverLocal_trace E p (E.GatheringCompletePromise p.peerConnection
          (E.CreateAnswer p.peerConnection p.opts.answerOptions
            (E.SetRemoteDescription p.peerConnection sdp w.engine).2).2).1 cb
          _ with ht | ⟨ld, ht⟩
      · exact ⟨[], Or.inl rfl, by rw [ht]; simp⟩
      · exact ⟨[Call.cb cb ld], Or.inr ⟨ld, rfl⟩, by rw [ht]; simp⟩
  · intro hs h
    simp [chain]
  · intro hs hall
    induction hs with
    | nil => rfl
    | cons h rest ih =>
      have hh : h = NOOPHandler := hall h (List.mem_cons_self h rest)
      have hr : chain rest d = d := ih (fun x hx => hall x (List.mem_cons_of_mem h hx))
      simpa [chain, hh, NOOPHandler] using hr

/-- Witness of C5 on the concrete engine: with the handlers appending `a` and then `b`, the
generated `offer` is committed as `offerab` and delivered to the callback. -/
theorem transform_chaining_witness :
    (toyPeer true true).opts.initiator = true ∧
    (toyEngine.CreateOffer (toyPeer true true).peerConnection (toyPeer true true).opts.offerOptions
      (toyWorld toyState).engine).1 = .ok ⟨"offer"⟩ ∧
    ((toyPeer true true).CreateOffer toyEngine ⟨5⟩ (toyWorld toyState)).2.2.trace =
      [Call.CreateOffer ⟨1⟩ ⟨false⟩, Call.SDPTransform 0 ⟨"offer"⟩, Call.SDPTransform 1 ⟨"offera"⟩,
        Call.GatheringCompletePromise ⟨1⟩, Call.SetLocalDescription ⟨1⟩ ⟨"offerab"⟩,
        Call.cb ⟨5⟩ ⟨"offerab"⟩] ∧
    ∃ tail, (tail = [] ∨ ∃ ld, tail = [Call.cb ⟨5⟩ ld]) ∧
      ((toyPeer true true).CreateOffer toyEngine ⟨5⟩ (toyWorld toyState)).2.2.trace =
        (toyWorld toyState).trace ++
          [Call.CreateOffer (toyPeer true true).peerConnection (toyPeer true true).opts.offerOptions] ++
          chainCalls (toyPeer true true).opts.handlers ⟨"offer"⟩ ++
          [Call.GatheringCompletePromise (toyPeer true true).peerConnection,
            Call.SetLocalDescription (toyPeer true true).peerConnection
              (chain (toyPeer true true).opts.handlers ⟨"offer"⟩)] ++ tail :=
  ⟨rfl, rfl, by decide,
    (transform_chaining toyEngine (toyPeer true true) (toyWorld toyState) ⟨5⟩ ⟨"x"⟩ ⟨"offer"⟩).1
      rfl rfl⟩

/-- The calls made by the candidate loop started at handler number `i`. -/
theorem trickleCalls_eq (hs : List Handler) (i : Nat) (c : ICECandidate) :
    trickleCalls hs i c =
      (List.range hs.length).map (fun k => Call.OnTrickleICECandidate (i + k) c) := by
  induction hs generalizing i with
  | nil => simp [trickleCalls]
  | cons h rest ih =>
    rw [trickleCalls, ih]
    simp only [List.length_cons, List.range_succ_eq_map, List.map_cons, List.map_map,
      Nat.add_zero]
    congr 1
    apply List.map_congr_left
    intro k _
    simp [Nat.add_assoc, Nat.add_comm 1 k]

/-- C6 (candidate propagation): for every peer and every candidate event of the engine,
the terminal nil candidate reaches no handler; in trickle mode a non-nil candidate is
passed to `OnTrickleICECandidate` of every registered handler exactly once, in
registration order, and nothing else happens; in non-trickle mode no handler is invoked.
This holds for the method `onICECandidate` and for the delivery of the engine's event to
the closure registered in `NewPeer`. -/
theorem candidate_propagation (E : Engine σ) (p : Peer) (w : World σ) (pc : PeerConnection)
    (c : ICECandidate) (candidate : Option ICECandidate) :
    p.onICECandidate none w = (p, w) ∧
    (p.opts.trickle = true →
      p.onICECandidate (some c) w =
        (p, { w with trace := w.trace ++
          (List.range p.opts.handlers.length).map (fun k => Call.OnTrickleICECandidate k c) })) ∧
    (p.opts.trickle = false → p.onICECandidate candidate w = (p, w)) ∧
    deliver E (Event.ICECandidate pc candidate) p w =
      (Outcome.returned (),
        if Callback.OnICECandidate pc ∈ w.callbacks then p.onICECandidate candidate w
        else (p, w)) := by
  refine ⟨rfl, ?_, ?_, ?_⟩
  · intro h
    simp [Peer.onICECandidate, h, trickleCalls_eq]
  · intro h
    cases candidate <;> simp [Peer.onICECandidate, h]
  · simp only [deliver]
    split <;> rfl

/-- Witness of C6 on the concrete engine: a trickling peer with two handlers forwards the
candidate to handler 0 and then to handler 1; a non-trickling peer forwards nothing. -/
theorem candidate_propagation_witness :
    ((toyPeer true true).opts.trickle = true ∧
      ((toyPeer true true).onICECandidate (some ⟨"host"⟩) (toyWorld toyState)).2.trace =
        [Call.OnTrickleICECandidate 0 ⟨"host"⟩, Call.OnTrickleICECandidate 1 ⟨"host"⟩]) ∧
    ((toyPeer true false).opts.trickle = false ∧
      (toyPeer true false).onICECandidate (some ⟨"host"⟩) (toyWorld toyState) =
        (toyPeer true false, toyWorld toyState)) :=
  ⟨⟨rfl, by
      rw [(candidate_propagation toyEngine (toyPeer true true) (toyWorld toyState) ⟨1⟩
        ⟨"host"⟩ none).2.1 rfl]
      rfl⟩,
    ⟨rfl, (candidate_propagation toyEngine (toyPeer true false) (toyWorld toyState) ⟨1⟩
        ⟨"host"⟩ (some ⟨"host"⟩)).2.2.1 rfl⟩⟩

/-- C8 (negotiation errors propagate): when the engine rejects the remote description
given to a responder's `ReceiveOffer`, the call returns an error that wraps the engine's
error (`errors.Is` finds it), and its only effect is that one `SetRemoteDescription`: no
answer is created, no local description is set, the callback is not invoked and no
goroutine is started that would invoke it later.  An initiator's `ReceiveAnswer` performs
that one `SetRemoteDescription` and returns its result as it is, so it returns an error
exactly when the engine does, and then the engine's error. -/
theorem negotiation_errors (E : Engine σ) (p : Peer) (w : World σ) (sdp : SessionDescription)
    (cb : DescriptionCallback) :
    (∀ err, p.opts.initiator = false →
      (E.SetRemoteDescription p.peerConnection sdp w.engine).1 = some err →
      p.ReceiveOffer E sdp cb w =
        (Outcome.returned (some (Err.wrap "speer: failed to set remote description: %w" err)), p,
          { w with engine := (E.SetRemoteDescription p.peerConnection sdp w.engine).2,
                   trace := w.trace ++ [Call.SetRemoteDescription p.peerConnection sdp] }) ∧
      errorsIs (some (Err.wrap "speer: failed to set remote description: %w" err)) (some err) =
        true) ∧
    (p.opts.initiator = true →
      p.ReceiveAnswer E sdp w =
        ((E.SetRemoteDescription p.peerConnection sdp w.engine).1, p,
          { w with engine := (E.SetRemoteDescription p.peerConnection sdp w.engine).2,
                   trace := w.trace ++ [Call.SetRemoteDescription p.peerConnection sdp] }) ∧
      ((p.ReceiveAnswer E sdp w).1 ≠ none ↔
        (E.SetRemoteDescription p.peerConnection sdp w.engine).1 ≠ none)) := by
  constructor
  · intro err hi hr
    refine ⟨by simp [Peer.ReceiveOffer, hi, call, hr], ?_⟩
    simp [errorsIs, Err.is, Err.is_self]
  · intro hi
    simp [Peer.ReceiveAnswer, hi, call]

/-- Witness of C8 on the concrete engine, which rejects a description with an empty body:
the responder's `ReceiveOffer` returns the wrapped error after the one engine call, and the
initiator's `ReceiveAnswer` returns the engine's error itself. -/
theorem negotiation_errors_witness :
    ((toyPeer false false).opts.initiator = false ∧
      (toyEngine.SetRemoteDescription (toyPeer false false).peerConnection ⟨""⟩
        (toyWorld toyState).engine).1 = some (Err.new "invalid description") ∧
      ((toyPeer false false).ReceiveOffer toyEngine ⟨""⟩ ⟨0⟩ (toyWorld toyState)).1 =
        Outcome.returned
          (some (Err.wrap "speer: failed to set remote description: %w"
            (Err.new "invalid description"))) ∧
      ((toyPeer false false).ReceiveOffer toyEngine ⟨""⟩ ⟨0⟩ (toyWorld toyState)).2.2.trace =
        [Call.SetRemoteDescription ⟨1⟩ ⟨""⟩]) ∧
    ((toyPeer true false).opts.initiator = true ∧
      ((toyPeer true false).ReceiveAnswer toyEngine ⟨""⟩ (toyWorld toyState)).1 =
        some (Err.new "invalid description")) :=
  ⟨⟨rfl, rfl,
      by rw [((negotiation_errors toyEngine (toyPeer false false) (toyWorld toyState) ⟨""⟩
        ⟨0⟩).1 (Err.new "invalid description") rfl rfl).1],
      by rw [((negotiation_errors toyEngine (toyPeer false false) (toyWorld toyState) ⟨""⟩
        ⟨0⟩).1 (Err.new "invalid description") rfl rfl).1]; rfl⟩,
    ⟨rfl, by rw [((negotiation_errors toyEngine (toyPeer true false) (toyWorld toyState) ⟨""⟩
        ⟨0⟩).2 rfl).1]; rfl⟩⟩

/-- C9, as stated, fails: a responder whose channel config is pre-negotiated without an
identifier is outside the specification's condition, yet `NewPeer` creates the channel at
once, sets it up, and registers no `OnDataChannel` callback. -/
theorem NewPeer_channel_counterexample :
    specCreatesChannel (resolve [WithChannelConfig ⟨some true, none⟩]) = false ∧
    (NewPeer toyEngine [WithChannelConfig ⟨some true, none⟩] (toyWorld toyState)).1 =
      .ok { freshPeer (resolve [WithChannelConfig ⟨some true, none⟩]) ⟨1⟩ with
            channel := some ⟨7⟩ } ∧
    (NewPeer toyEngine [WithChannelConfig ⟨some true, none⟩] (toyWorld toyState)).2.trace =
      [Call.NewPeerConnection defaultOptions.config, Call.OnICECandidate ⟨1⟩,
        Call.OnConnectionStateChange ⟨1⟩,
        Call.CreateDataChannel ⟨1⟩ "ddraaaaaaaaaaaaaaaaa" ⟨some true, none⟩,
        Call.SetBufferedAmountLowThreshold ⟨7⟩ 65536, Call.OnError ⟨7⟩, Call.OnOpen ⟨7⟩,
        Call.OnClose ⟨7⟩] ∧
    Callback.OnDataChannel ⟨1⟩ ∉
      (NewPeer toyEngine [WithChannelConfig ⟨some true, none⟩] (toyWorld toyState)).2.callbacks := by
  refine ⟨by decide, rfl, by decide, by decide⟩

/-- The function `NewPeer` when the engine fails to create the connection. -/
theorem NewPeer_connection_error (E : Engine σ) (opts : List peerOption) (w : World σ)
    (err : Err) (h : (E.NewPeerConnection (resolve opts).config w.engine).1 = .error err) :
    NewPeer E opts w =
      (.error err,
        { w with engine := (E.NewPeerConnection (resolve opts).config w.engine).2,
                 trace := w.trace ++ [Call.NewPeerConnection (resolve opts).config] }) := by
  simp [NewPeer, call, h]

/-- The function `NewPeer` when the connection exists and the guard for creating the
channel is false. -/
theorem NewPeer_without_channel (E : Engine σ) (opts : List peerOption) (w : World σ)
    (inner : PeerConnection)
    (h : (E.NewPeerConnection (resolve opts).config w.engine).1 = .ok inner)
    (hc : createsChannel (resolve opts) = false) :
    NewPeer E opts w =
      (.ok (freshPeer (resolve opts) inner),
        { w with engine := (E.NewPeerConnection (resolve opts).config w.engine).2,
                 callbacks := w.callbacks ++ [Callback.OnICECandidate inner,
                   Callback.OnConnectionStateChange inner, Callback.OnDataChannel inner],
                 trace := w.trace ++ [Call.NewPeerConnection (resolve opts).config,
                   Call.OnICECandidate inner, Call.OnConnectionStateChange inner,
                   Call.OnDataChannel inner] }) := by
  simp [NewPeer, call, h, hc, register, freshPeer]

/-- The function `NewPeer` when the guard for creating the channel is true and the engine
fails to create it. -/
theorem NewPeer_create_error (E : Engine σ) (opts : List peerOption) (w : World σ)
    (inner : PeerConnection) (err : Err)
    (h : (E.NewPeerConnection (resolve opts).config w.engine).1 = .ok inner)
    (hc : createsChannel (resolve opts) = true)
    (he : (E.CreateDataChannel inner (randString 20 w.rng).1 (resolve opts).channelConfig
      (E.NewPeerConnection (resolve opts).config w.engine).2).1 = .error err) :
    NewPeer E opts w =
      (.error err,
        { engine := (E.CreateDataChannel inner (randString 20 w.rng).1
              (resolve opts).channelConfig
              (E.NewPeerConnection (resolve opts).config w.engine).2).2,
          rng := (randString 20 w.rng).2,
          callbacks := w.callbacks ++ [Callback.OnICECandidate inner,
            Callback.OnConnectionStateChange inner],
          goroutines := w.goroutines,
          trace := w.trace ++ [Call.NewPeerConnection (resolve opts).config,
            Call.OnICECandidate inner, Call.OnConnectionStateChange inner,
            Call.CreateDataChannel inner (randString 20 w.rng).1
              (resolve opts).channelConfig] }) := by
  simp [NewPeer, call, h, hc, register, he]

/-- The function `NewPeer` when the guard for creating the channel is true and the engine
creates it. -/
theorem NewPeer_with_channel (E : Engine σ) (opts : List peerOption) (w : World σ)
    (inner : PeerConnection) (ch : DataChannel)
    (h : (E.NewPeerConnection (resolve opts).config w.engine).1 = .ok inner)
    (hc : createsChannel (resolve opts) = true)
    (he : (E.CreateDataChannel inner (randString 20 w.rng).1 (resolve opts).channelConfig
      (E.NewPeerConnection (resolve opts).config w.engine).2).1 = .ok ch) :
    NewPeer E opts w =
      (.ok { freshPeer (resolve opts) inner with channel := some ch },
        { engine := (E.SetBufferedAmountLowThreshold ch 65536
              (E.CreateDataChannel inner (randString 20 w.rng).1
                (resolve opts).channelConfig
                (E.NewPeerConnection (resolve opts).config w.engine).2).2).2,
          rng := (randString 20 w.rng).2,
          callbacks := w.callbacks ++ [Callback.OnICECandidate inner,
            Callback.OnConnectionStateChange inner, Callback.OnError ch,
            Callback.OnOpen ch, Callback.OnClose ch],
          goroutines := w.goroutines,
          trace := w.trace ++ [Call.NewPeerConnection (resolve opts).config,
            Call.OnICECandidate inner, Call.OnConnectionStateChange inner,
            Call.CreateDataChannel inner (randString 20 w.rng).1
              (resolve opts).channelConfig,
            Call.SetBufferedAmountLowThreshold ch 65536, Call.OnError ch,
            Call.OnOpen ch, Call.OnClose ch] }) := by
  simp [NewPeer, call, h, hc, register, he, Peer.setupData, freshPeer]

/-- C9, amended: `NewPeer` creates the data channel at once, and runs `setupData` on it,
exactly when the role is initiator or the channel config's `Negotiated` flag is set and
true, whether or not an identifier is given; otherwise it creates no channel and registers
the `OnDataChannel` callback instead.  If creating the connection or the channel fails,
`NewPeer` returns that error and no peer. -/
theorem NewPeer_channel (E : Engine σ) (opts : List peerOption) (w : World σ) :
    (createsChannel (resolve opts) = true ↔
      ((resolve opts).initiator = true ∨ (resolve opts).channelConfig.Negotiated = some true)) ∧
    (∀ err, (E.NewPeerConnection (resolve opts).config w.engine).1 = .error err →
      NewPeer E opts w =
        (.error err,
          { w with engine := (E.NewPeerConnection (resolve opts).config w.engine).2,
                   trace := w.trace ++ [Call.NewPeerConnection (resolve opts).config] })) ∧
    (∀ inner, (E.NewPeerConnection (resolve opts).config w.engine).1 = .ok inner →
      (createsChannel (resolve opts) = false →
        NewPeer E opts w =
          (.ok (freshPeer (resolve opts) inner),
            { w with engine := (E.NewPeerConnection (resolve opts).config w.engine).2,
                     callbacks := w.callbacks ++ [Callback.OnICECandidate inner,
                       Callback.OnConnectionStateChange inner, Callback.OnDataChannel inner],
                     trace := w.trace ++ [Call.NewPeerConnection (resolve opts).config,
                       Call.OnICECandidate inner, Call.OnConnectionStateChange inner,
                       Call.OnDataChannel inner] })) ∧
      (createsChannel (resolve opts) = true →
        (∀ err, (E.CreateDataChannel inner (randString 20 w.rng).1 (resolve opts).channelConfig
            (E.NewPeerConnection (resolve opts).config w.engine).2).1 = .error err →
          NewPeer E opts w =
            (.error err,
              { engine := (E.CreateDataChannel inner (randString 20 w.rng).1
                    (resolve opts).channelConfig
                    (E.NewPeerConnection (resolve opts).config w.engine).2).2,
                rng := (randString 20 w.rng).2,
                callbacks := w.callbacks ++ [Callback.OnICECandidate inner,
                  Callback.OnConnectionStateChange inner],
                goroutines := w.goroutines,
                trace := w.trace ++ [Call.NewPeerConnection (resolve opts).config,
                  Call.OnICECandidate inner, Call.OnConnectionStateChange inner,
                  Call.CreateDataChannel inner (randString 20 w.rng).1
                    (resolve opts).channelConfig] })) ∧
        (∀ ch, (E.CreateDataChannel inner (randString 20 w.rng).1 (resolve opts).channelConfig
            (E.NewPeerConnection (resolve opts).config w.engine).2).1 = .ok ch →
          NewPeer E opts w =
            (.ok { freshPeer (resolve opts) inner with channel := some ch },
              { engine := (E.SetBufferedAmountLowThreshold ch 65536
                    (E.CreateDataChannel inner (randString 20 w.rng).1
                      (resolve opts).channelConfig
                      (E.NewPeerConnection (resolve opts).config w.engine).2).2).2,
                rng := (randString 20 w.rng).2,
                callbacks := w.callbacks ++ [Callback.OnICECandidate inner,
                  Callback.OnConnectionStateChange inner, Callback.OnError ch,
                  Callback.OnOpen ch, Callback.OnClose ch],
                goroutines := w.goroutines,
                trace := w.trace ++ [Call.NewPeerConnection (resolve opts).config,
                  Call.OnICECandidate inner, Call.OnConnectionStateChange inner,
                  Call.CreateDataChannel inner (randString 20 w.rng).1
                    (resolve opts).channelConfig,
                  Call.SetBufferedAmountLowThreshold ch 65536, Call.OnError ch,
                  Call.OnOpen ch, Call.OnClose ch] })))) := by
  refine ⟨?_, fun err h => NewPeer_connection_error E opts w err h, fun inner h => ⟨?_, ?_⟩⟩
  · unfold createsChannel
    cases (resolve opts).initiator <;> cases (resolve opts).channelConfig.Negotiated <;> simp
  · intro hc
    exact NewPeer_without_channel E opts w inner h hc
  · intro hc
    exact ⟨fun err he => NewPeer_create_error E opts w inner err h hc he,
      fun ch he => NewPeer_with_channel E opts w inner ch h hc he⟩

/-- Witness of C9 as amended, on the concrete engine: a default (responder) peer gets no
channel and the `OnDataChannel` callback; an initiator gets channel 7. -/
theorem NewPeer_channel_witness :
    (createsChannel (resolve []) = false ∧
      (NewPeer toyEngine [] (toyWorld toyState)).1 = .ok (freshPeer (resolve []) ⟨1⟩) ∧
      (NewPeer toyEngine [] (toyWorld toyState)).2.callbacks =
        [Callback.OnICECandidate ⟨1⟩, Callback.OnConnectionStateChange ⟨1⟩,
          Callback.OnDataChannel ⟨1⟩]) ∧
    (createsChannel (resolve [WithInitiator true]) = true ∧
      (NewPeer toyEngine [WithInitiator true] (toyWorld toyState)).1 =
        .ok { freshPeer (resolve [WithInitiator true]) ⟨1⟩ with channel := some ⟨7⟩ }) :=
  ⟨⟨rfl,
      by rw [((NewPeer_channel toyEngine [] (toyWorld toyState)).2.2 ⟨1⟩ rfl).1 rfl],
      by rw [((NewPeer_channel toyEngine [] (toyWorld toyState)).2.2 ⟨1⟩ rfl).1 rfl]; rfl⟩,
    ⟨rfl,
      by rw [(((NewPeer_channel toyEngine [WithInitiator true] (toyWorld toyState)).2.2 ⟨1⟩
        rfl).2 rfl).2 ⟨7⟩ rfl]⟩⟩

/-- The method `close` changes nothing of the peer but `AfterCloseErrors`, and nothing of
the world but the engine state and the trace. -/
theorem close_frame (E : Engine σ) (p : Peer) (errs : List Error) (w : World σ) :
    (p.close E errs w).1.opts = p.opts ∧
    (p.close E errs w).1.peerConnection = p.peerConnection ∧
    (p.close E errs w).1.channel = p.channel ∧
    (p.close E errs w).1.channelRWC = p.channelRWC ∧
    (p.close E errs w).2.callbacks = w.callbacks ∧
    (p.close E errs w).2.goroutines = w.goroutines ∧
    ∃ calls, (p.close E errs w).2.trace = w.trace ++ calls ∧
      ∀ c ∈ calls, ∀ f sd, c ≠ Call.cb f sd := by
  cases h : p.IsClosed E w with
  | true =>
    rw [close_of_IsClosed E p errs w h]
    exact ⟨rfl, rfl, rfl, rfl, rfl, rfl, [], by simp, by simp⟩
  | false =>
    rw [close_of_not_IsClosed E p errs w h]
    refine ⟨rfl, rfl, rfl, rfl, rfl, rfl, closeSteps p, rfl, ?_⟩
    intro c hc f sd heq
    subst heq
    cases hr : p.channelRWC <;> cases hch : p.channel <;> simp [closeSteps, hr, hch] at hc

/-- The `OnOpen` closure when `Detach` fails: the panic of `must`. -/
theorem onOpen_error (E : Engine σ) (p : Peer) (ch : DataChannel) (w : World σ) (e : Err)
    (h : (E.Detach ch w.engine).1 = .error e) :
    onOpen E p ch w =
      (Outcome.panicked, p,
        { w with engine := (E.Detach ch w.engine).2, trace := w.trace ++ [Call.Detach ch] }) := by
  simp [onOpen, call, h]

/-- The `OnOpen` closure when `Detach` succeeds: the stream is stored and every handler is
told the connection opened. -/
theorem onOpen_ok (E : Engine σ) (p : Peer) (ch : DataChannel) (w : World σ)
    (rwc : ReadWriteCloser) (h : (E.Detach ch w.engine).1 = .ok rwc) :
    onOpen E p ch w =
      (Outcome.returned (), { p with channelRWC := some rwc },
        { w with engine := (E.Detach ch w.engine).2,
                 trace := w.trace ++ [Call.Detach ch] ++ openedCalls p.opts.handlers 0 }) := by
  simp [onOpen, call, h]

/-- The peer's connection and options are never changed by an event. -/
theorem deliver_peer_frame (E : Engine σ) (ev : Event σ) (p : Peer) (w : World σ) :
    (deliver E ev p w).2.1.peerConnection = p.peerConnection ∧
      (deliver E ev p w).2.1.opts = p.opts := by
  cases ev with
  | Internal f => exact ⟨rfl, rfl⟩
  | ICECandidate pc candidate =>
    simp only [deliver]
    split
    · cases candidate with
      | none => exact ⟨rfl, rfl⟩
      | some c => cases ht : p.opts.trickle <;> simp [Peer.onICECandidate, ht]
    · exact ⟨rfl, rfl⟩
  | ConnectionStateChange pc pcs => simp only [deliver]; split <;> exact ⟨rfl, rfl⟩
  | DataChannel pc c => simp only [deliver]; split <;> exact ⟨rfl, rfl⟩
  | ChannelError ch err =>
    simp only [deliver]
    split
    · exact ⟨(close_frame E p [err] w).2.1, (close_frame E p [err] w).1⟩
    · exact ⟨rfl, rfl⟩
  | ChannelOpen ch =>
    simp only [deliver]
    split
    · cases hd : (E.Detach ch w.engine).1 with
      | error e => rw [onOpen_error E p ch w e hd]; exact ⟨rfl, rfl⟩
      | ok rwc => rw [onOpen_ok E p ch w rwc hd]; exact ⟨rfl, rfl⟩
    · exact ⟨rfl, rfl⟩
  | ChannelClose ch =>
    simp only [deliver]
    split
    · exact ⟨(close_frame E p [] w).2.1, (close_frame E p [] w).1⟩
    · exact ⟨rfl, rfl⟩
  | GatherComplete pr => exact ⟨rfl, rfl⟩

/-- The transform calls invoke no description callback. -/
theorem chainCalls_quiet (hs : List Handler) (d : SessionDescription) :
    ∀ x ∈ chainCalls hs d, ∀ f sd, x ≠ Call.cb f sd := by
  intro x hx f sd
  simp only [chainCalls, List.mem_map] at hx
  obtain ⟨k, _, rfl⟩ := hx
  simp

/-- Resuming goroutines registers no closure. -/
theorem resume_callbacks (E : Engine σ) (p : Peer) (gs : List Goroutine) (w : World σ) :
    (resume E p gs w).2.callbacks = w.callbacks := by
  induction gs generalizing w with
  | nil => rfl
  | cons g rest ih =>
    simp only [resume]
    cases E.LocalDescription p.peerConnection w.engine with
    | none => rfl
    | some ld => simpa [record] using ih (record (Call.cb g.cb ld) w)

/-- What `setupData` does. -/
theorem setupData_eq (E : Engine σ) (p : Peer) (c : DataChannel) (w : World σ) :
    p.setupData E c w =
      ({ p with channel := some c },
        { w with
          engine := (E.SetBufferedAmountLowThreshold c 65536 w.engine).2,
          callbacks := w.callbacks ++ [Callback.OnError c, Callback.OnOpen c, Callback.OnClose c],
          trace := w.trace ++ [Call.SetBufferedAmountLowThreshold c 65536, Call.OnError c,
            Call.OnOpen c, Call.OnClose c] }) := by
  simp [Peer.setupData, register, call]

/-- Which parts of the peer and of the registered closures an event can change: closures
are only ever added; only a `DataChannel` event changes the channel or the closures; only
a `ChannelOpen` event changes the stream handle. -/
theorem deliver_frame (E : Engine σ) (ev : Event σ) (p : Peer) (w : World σ) :
    (∀ k ∈ w.callbacks, k ∈ (deliver E ev p w).2.2.callbacks) ∧
    ((∀ pc c, ev ≠ Event.DataChannel pc c) →
      (deliver E ev p w).2.1.channel = p.channel ∧
      (deliver E ev p w).2.2.callbacks = w.callbacks) ∧
    ((∀ ch, ev ≠ Event.ChannelOpen ch) →
      (deliver E ev p w).2.1.channelRWC = p.channelRWC) := by
  cases ev with
  | Internal f => exact ⟨fun k hk => hk, fun _ => ⟨rfl, rfl⟩, fun _ => rfl⟩
  | ICECandidate pc candidate =>
    have h : (deliver E (Event.ICECandidate pc candidate) p w).2.1 = p ∧
        (deliver E (Event.ICECandidate pc candidate) p w).2.2.callbacks = w.callbacks := by
      simp only [deliver]
      split
      · cases candidate with
        | none => exact ⟨rfl, rfl⟩
        | some c => cases ht : p.opts.trickle <;> simp [Peer.onICECandidate, ht]
      · exact ⟨rfl, rfl⟩
    exact ⟨fun k hk => by rw [h.2]; exact hk, fun _ => ⟨by rw [h.1], h.2⟩, fun _ => by rw [h.1]⟩
  | ConnectionStateChange pc pcs =>
    have h : (deliver E (Event.ConnectionStateChange pc pcs) p w).2.1 = p ∧
        (deliver E (Event.ConnectionStateChange pc pcs) p w).2.2.callbacks = w.callbacks := by
      simp only [deliver]
      split
      · by_cases hp : pcs = PeerConnectionState.Closed <;> simp [onConnectionStateChange, hp]
      · exact ⟨rfl, rfl⟩
    exact ⟨fun k hk => by rw [h.2]; exact hk, fun _ => ⟨by rw [h.1], h.2⟩, fun _ => by rw [h.1]⟩
  | DataChannel pc c =>
    refine ⟨?_, fun h => absurd rfl (h pc c), fun _ => ?_⟩
    · intro k hk
      simp only [deliver]
      split
      · rw [setupData_eq]
        exact List.mem_append_left _ hk
      · exact hk
    · simp only [deliver]
      split
      · rw [setupData_eq]
      · rfl
  | ChannelError ch err =>
    have h : (deliver E (Event.ChannelError ch err) p w).2.1.channel = p.channel ∧
        (deliver E (Event.ChannelError ch err) p w).2.1.channelRWC = p.channelRWC ∧
        (deliver E (Event.ChannelError ch err) p w).2.2.callbacks = w.callbacks := by
      simp only [deliver]
      split
      · exact ⟨(close_frame E p [err] w).2.2.1, (close_frame E p [err] w).2.2.2.1,
          (close_frame E p [err] w).2.2.2.2.1⟩
      · exact ⟨rfl, rfl, rfl⟩
    exact ⟨fun k hk => by rw [h.2.2]; exact hk, fun _ => ⟨h.1, h.2.2⟩, fun _ => h.2.1⟩
  | ChannelOpen ch =>
    have h : (deliver E (Event.ChannelOpen ch) p w).2.1.channel = p.channel ∧
        (deliver E (Event.ChannelOpen ch) p w).2.2.callbacks = w.callbacks := by
      simp only [deliver]
      split
      · cases hd : (E.Detach ch w.engine).1 with
        | error e => rw [onOpen_error E p ch w e hd]; exact ⟨rfl, rfl⟩
        | ok rwc => rw [onOpen_ok E p ch w rwc hd]; exact ⟨rfl, rfl⟩
      · exact ⟨rfl, rfl⟩
    exact ⟨fun k hk => by rw [h.2]; exact hk, fun _ => h, fun hne => absurd rfl (hne ch)⟩
  | ChannelClose ch =>
    have h : (deliver E (Event.ChannelClose ch) p w).2.1.channel = p.channel ∧
        (deliver E (Event.ChannelClose ch) p w).2.1.channelRWC = p.channelRWC ∧
        (deliver E (Event.ChannelClose ch) p w).2.2.callbacks = w.callbacks := by
      simp only [deliver]
      split
      · exact ⟨(close_frame E p [] w).2.2.1, (close_frame E p [] w).2.2.2.1,
          (close_frame E p [] w).2.2.2.2.1⟩
      · exact ⟨rfl, rfl, rfl⟩
    exact ⟨fun k hk => by rw [h.2.2]; exact hk, fun _ => ⟨h.1, h.2.2⟩, fun _ => h.2.1⟩
  | GatherComplete pr =>
    have h : (deliver E (Event.GatherComplete pr) p w).2.2.callbacks = w.callbacks := by
      simp only [deliver, resume_callbacks]
    exact ⟨fun k hk => by rw [h]; exact hk, fun _ => ⟨rfl, h⟩, fun _ => rfl⟩

/-- Closures stay registered through every sequence of events. -/
theorem run_callbacks (E : Engine σ) (evs : List (Event σ)) (p : Peer) (w : World σ)
    (k : Callback) (hk : k ∈ w.callbacks) : k ∈ (run E evs p w).2.2.callbacks := by
  induction evs generalizing p w with
  | nil => exact hk
  | cons ev rest ih =>
    have h1 := (deliver_frame E ev p w).1 k hk
    revert h1
    simp only [run]
    rcases hdel : deliver E ev p w with ⟨o, p1, w1⟩
    cases o with
    | panicked => intro h1; exact h1
    | returned u => intro h1; exact ih p1 w1 h1

/-- The peer's connection stays the same through every sequence of events. -/
theorem run_peerConnection (E : Engine σ) (evs : List (Event σ)) (p : Peer) (w : World σ) :
    (run E evs p w).2.1.peerConnection = p.peerConnection := by
  induction evs generalizing p w with
  | nil => rfl
  | cons ev rest ih =>
    have h1 := (deliver_peer_frame E ev p w).1
    revert h1
    simp only [run]
    rcases hdel : deliver E ev p w with ⟨o, p1, w1⟩
    cases o with
    | panicked => intro h1; exact h1
    | returned u => intro h1; rw [ih p1 w1]; exact h1

/-- Without a registered `OnDataChannel` closure no sequence of events changes the
channel. -/
theorem run_channel_fixed (E : Engine σ) (evs : List (Event σ)) (p : Peer) (w : World σ)
    (h : ∀ pc, Callback.OnDataChannel pc ∉ w.callbacks) :
    (run E evs p w).2.1.channel = p.channel := by
  induction evs generalizing p w with
  | nil => rfl
  | cons ev rest ih =>
    have h1 : (deliver E ev p w).2.1.channel = p.channel ∧
        (deliver E ev p w).2.2.callbacks = w.callbacks := by
      by_cases hd : ∃ pc c, ev = Event.DataChannel pc c
      · obtain ⟨pc, c, rfl⟩ := hd
        simp [deliver, h pc]
      · exact (deliver_frame E ev p w).2.1 (fun pc c he => hd ⟨pc, c, he⟩)
    revert h1
    simp only [run]
    rcases hdel : deliver E ev p w with ⟨o, p1, w1⟩
    cases o with
    | panicked => intro h1; exact h1.1
    | returned u =>
      intro h1
      rw [ih p1 w1 (by intro pc; rw [h1.2]; exact h pc)]
      exact h1.1

/-- Delivering one more event after a sequence that did not panic. -/
theorem run_snoc (E : Engine σ) (evs : List (Event σ)) (ev : Event σ) (p : Peer) (w : World σ)
    (h : (run E evs p w).1 = Outcome.returned ()) :
    run E (evs ++ [ev]) p w = deliver E ev (run E evs p w).2.1 (run E evs p w).2.2 := by
  induction evs generalizing p w with
  | nil =>
    simp only [List.nil_append, run]
    rcases hdel : deliver E ev p w with ⟨o, p1, w1⟩
    cases o <;> rfl
  | cons e rest ih =>
    revert h
    simp only [List.cons_append, run]
    rcases hdel : deliver E e p w with ⟨o, p1, w1⟩
    cases o with
    | panicked => intro h; simp at h
    | returned u => intro h; exact ih p1 w1 h

/-- C10, as stated, fails: the responder built by `NewPeer` with no options adopts
channel 7 when it is offered and then, when the remote side offers channel 8, adopts that
one in its place; channel 7 opening sets the stream handle to stream 9, and channel 8
opening replaces it by stream 10.  The peer held two channels and two stream handles. -/
theorem single_channel_counterexample :
    (NewPeer toyEngine [] (toyWorld toyState)) = (.ok toyResponder, toyResponderWorld) ∧
    createsChannel (resolve []) = false ∧
    (run toyEngine [Event.DataChannel ⟨1⟩ ⟨7⟩] toyResponder toyResponderWorld).2.1.channel =
      some ⟨7⟩ ∧
    (run toyEngine [Event.DataChannel ⟨1⟩ ⟨7⟩, Event.DataChannel ⟨1⟩ ⟨8⟩] toyResponder
      toyResponderWorld).2.1.channel = some ⟨8⟩ ∧
    (run toyEngine [Event.DataChannel ⟨1⟩ ⟨7⟩, Event.ChannelOpen ⟨7⟩] toyResponder
      toyResponderWorld).2.1.channelRWC = some ⟨9⟩ ∧
    (run toyEngine [Event.DataChannel ⟨1⟩ ⟨7⟩, Event.ChannelOpen ⟨7⟩, Event.DataChannel ⟨1⟩ ⟨8⟩,
      Event.ChannelOpen ⟨8⟩] toyResponder toyResponderWorld).2.1.channelRWC = some ⟨10⟩ := by
  refine ⟨rfl, rfl, by decide, by decide, by decide, by decide⟩

/-- C10, amended: the peer holds at most one channel and one stream handle at a time (one
field each), and which ones is decided as follows.  For a peer that `NewPeer` built with
its channel (initiator, or `Negotiated` set and true), in a world where no `OnDataChannel`
closure was registered before, no sequence of engine events changes the channel.  For a
peer that `NewPeer` built without channel, every channel the remote side offers is
adopted, whatever channel the peer holds: after any sequence of events, a further
`DataChannel` event makes the offered channel the peer's channel and registers its
`OnOpen` closure.  The open event of any channel with a registered `OnOpen` closure sets
the stream handle to that channel's detached stream.  No event but a `DataChannel` event
changes the channel, and no event but a `ChannelOpen` event changes the stream handle. -/
theorem channel_adoption (E : Engine σ) (opts : List peerOption) (w : World σ) (p0 : Peer)
    (hnew : (NewPeer E opts w).1 = .ok p0)
    (hfresh : ∀ pc, Callback.OnDataChannel pc ∉ w.callbacks) :
    (createsChannel (resolve opts) = true →
      (∃ ch, p0.channel = some ch) ∧
      ∀ evs, (run E evs p0 (NewPeer E opts w).2).2.1.channel = p0.channel) ∧
    (createsChannel (resolve opts) = false →
      p0.channel = none ∧
      ∀ evs c, (run E evs p0 (NewPeer E opts w).2).1 = Outcome.returned () →
        (run E (evs ++ [Event.DataChannel p0.peerConnection c]) p0 (NewPeer E opts w).2).1 =
          Outcome.returned () ∧
        (run E (evs ++ [Event.DataChannel p0.peerConnection c]) p0
          (NewPeer E opts w).2).2.1.channel = some c ∧
        Callback.OnOpen c ∈
          (run E (evs ++ [Event.DataChannel p0.peerConnection c]) p0
            (NewPeer E opts w).2).2.2.callbacks) ∧
    (∀ (p : Peer) (w1 : World σ) ch rwc, Callback.OnOpen ch ∈ w1.callbacks →
      (E.Detach ch w1.engine).1 = .ok rwc →
      (deliver E (Event.ChannelOpen ch) p w1).2.1.channelRWC = some rwc) ∧
    (∀ (p : Peer) (w1 : World σ) ev, (∀ pc c, ev ≠ Event.DataChannel pc c) →
      (deliver E ev p w1).2.1.channel = p.channel) ∧
    (∀ (p : Peer) (w1 : World σ) ev, (∀ ch, ev ≠ Event.ChannelOpen ch) →
      (deliver E ev p w1).2.1.channelRWC = p.channelRWC) := by
  refine ⟨?_, ?_, ?_, ?_, ?_⟩
  · intro hc
    cases hn : (E.NewPeerConnection (resolve opts).config w.engine).1 with
    | error err =>
      rw [NewPeer_connection_error E opts w err hn] at hnew
      simp at hnew
    | ok inner =>
      cases hd : (E.CreateDataChannel inner (randString 20 w.rng).1 (resolve opts).channelConfig
          (E.NewPeerConnection (resolve opts).config w.engine).2).1 with
      | error err =>
        rw [NewPeer_create_error E opts w inner err hn hc hd] at hnew
        simp at hnew
      | ok ch =>
        have he := NewPeer_with_channel E opts w inner ch hn hc hd
        rw [he] at hnew ⊢
        simp only [Except.ok.injEq] at hnew
        subst hnew
        refine ⟨⟨ch, rfl⟩, fun evs => run_channel_fixed E evs _ _ ?_⟩
        intro pc hmem
        simp only [List.mem_append, List.mem_cons, List.mem_singleton, reduceCtorEq,
          List.not_mem_nil, or_false, or_self] at hmem
        exact hfresh pc hmem
  · intro hc
    cases hn : (E.NewPeerConnection (resolve opts).config w.engine).1 with
    | error err =>
      rw [NewPeer_connection_error E opts w err hn] at hnew
      simp at hnew
    | ok inner =>
      have he := NewPeer_without_channel E opts w inner hn hc
      rw [he] at hnew ⊢
      simp only [Except.ok.injEq] at hnew
      subst hnew
      refine ⟨rfl, ?_⟩
      intro evs c hret
      have hreg : Callback.OnDataChannel inner ∈
          (run E evs (freshPeer (resolve opts) inner)
            { w with engine := (E.NewPeerConnection (resolve opts).config w.engine).2,
                     callbacks := w.callbacks ++ [Callback.OnICECandidate inner,
                       Callback.OnConnectionStateChange inner, Callback.OnDataChannel inner],
                     trace := w.trace ++ [Call.NewPeerConnection (resolve opts).config,
                       Call.OnICECandidate inner, Call.OnConnectionStateChange inner,
                       Call.OnDataChannel inner] }).2.2.callbacks :=
        run_callbacks E evs _ _ _ (by simp)
      have hpc : (freshPeer (resolve opts) inner).peerConnection = inner := rfl
      rw [run_snoc E evs _ _ _ hret, hpc]
      simp [deliver, hreg, setupData_eq]
  · intro p w1 ch rwc hreg hd
    simp only [deliver, hreg, if_true]
    rw [onOpen_ok E p ch w1 rwc hd]
  · intro p w1 ev h
    exact ((deliver_frame E ev p w1).2.1 h).1
  · intro p w1 ev h
    exact (deliver_frame E ev p w1).2.2 h

/-- Witness of C10 as amended, on the concrete engine: the responder built with no
options has no channel, and adopts channel 8 after having adopted and opened channel 7;
an initiator keeps channel 7 when the remote side offers channel 8. -/
theorem channel_adoption_witness :
    ((NewPeer toyEngine [] (toyWorld toyState)).1 = .ok toyResponder ∧
      (∀ pc, Callback.OnDataChannel pc ∉ (toyWorld toyState).callbacks) ∧
      createsChannel (resolve []) = false ∧
      (run toyEngine ([Event.DataChannel ⟨1⟩ ⟨7⟩, Event.ChannelOpen ⟨7⟩] ++
        [Event.DataChannel toyResponder.peerConnection ⟨8⟩]) toyResponder
        (NewPeer toyEngine [] (toyWorld toyState)).2).2.1.channel = some ⟨8⟩) ∧
    ((NewPeer toyEngine [WithInitiator true] (toyWorld toyState)).1 =
        .ok { freshPeer (resolve [WithInitiator true]) ⟨1⟩ with channel := some ⟨7⟩ } ∧
      createsChannel (resolve [WithInitiator true]) = true ∧
      (run toyEngine [Event.DataChannel ⟨1⟩ ⟨8⟩]
        { freshPeer (resolve [WithInitiator true]) ⟨1⟩ with channel := some ⟨7⟩ }
        (NewPeer toyEngine [WithInitiator true] (toyWorld toyState)).2).2.1.channel =
        some ⟨7⟩) :=
  ⟨⟨rfl, fun _ h => by simp [toyWorld] at h, rfl,
      (((channel_adoption toyEngine [] (toyWorld toyState) toyResponder rfl
        (fun _ h => by simp [toyWorld] at h)).2.1 rfl).2
        [Event.DataChannel ⟨1⟩ ⟨7⟩, Event.ChannelOpen ⟨7⟩] ⟨8⟩ rfl).2.1⟩,
    ⟨rfl, rfl,
      ((channel_adoption toyEngine [WithInitiator true] (toyWorld toyState)
        { freshPeer (resolve [WithInitiator true]) ⟨1⟩ with channel := some ⟨7⟩ } rfl
        (fun _ h => by simp [toyWorld] at h)).1 rfl).2 [Event.DataChannel ⟨1⟩ ⟨8⟩]⟩⟩

end Theorems

end Speer
